import Mathlib

/-!
Verification development for the zebra client library (`lib/zclient.c`).

The development shallowly embeds the client:

* streams (`struct stream`) become byte lists (`List Nat`, every byte `< 256`
  by construction of the put operations);
* the client handle (`struct zclient`) becomes `ZClientState`;
* the observable effects of a run (frames accepted by `buffer_write`,
  events armed through `zclient_event`, handlers invoked by `zclient_read`)
  are recorded in a `World` structure threaded through the operations;
* the outcome of each `buffer_write` call on the socket is an oracle
  `io : Nat -> BufferResult` consulted at the index of the call.

Constants that live in headers outside the repository snapshot
(`zebra.h`, `zclient.h`) are modelled from the spec: the spec fixes
`HEADER_SIZE = 6`, marker `0xFF`, version `2`, `HELLO = 0x17` and the
command codes of the on-connect handshake; the remaining numeric values
are only used as distinguished tokens, no claim depends on them.
-/

/-! ## Protocol constants (modelled from the spec where the header files
    are outside the snapshot) -/

def ZEBRA_HEADER_SIZE : Nat := 6
def ZEBRA_HEADER_MARKER : Nat := 255
def ZSERV_VERSION : Nat := 2
def ZEBRA_MAX_PACKET_SIZ : Nat := 4096
def ZEBRA_ROUTE_MAX : Nat := 11

def ZEBRA_INTERFACE_ADD : Nat := 1
def ZEBRA_INTERFACE_DELETE : Nat := 2
def ZEBRA_INTERFACE_ADDRESS_ADD : Nat := 3
def ZEBRA_INTERFACE_ADDRESS_DELETE : Nat := 4
def ZEBRA_INTERFACE_UP : Nat := 5
def ZEBRA_INTERFACE_DOWN : Nat := 6
def ZEBRA_IPV4_ROUTE_ADD : Nat := 7
def ZEBRA_IPV4_ROUTE_DELETE : Nat := 8
def ZEBRA_IPV6_ROUTE_ADD : Nat := 9
def ZEBRA_IPV6_ROUTE_DELETE : Nat := 10
def ZEBRA_REDISTRIBUTE_ADD : Nat := 11
def ZEBRA_REDISTRIBUTE_DELETE : Nat := 12
def ZEBRA_REDISTRIBUTE_DEFAULT_ADD : Nat := 13
def ZEBRA_REDISTRIBUTE_DEFAULT_DELETE : Nat := 14
def ZEBRA_ROUTER_ID_UPDATE : Nat := 22
def ZEBRA_HELLO : Nat := 23
def ZEBRA_ROUTER_ID_ADD : Nat := 24

def ZEBRA_NEXTHOP_IFINDEX : Nat := 1
def ZEBRA_NEXTHOP_IPV4 : Nat := 3
def ZEBRA_NEXTHOP_IPV6 : Nat := 6
def ZEBRA_NEXTHOP_BLACKHOLE : Nat := 9

def ZAPI_MESSAGE_NEXTHOP : Nat := 1
def ZAPI_MESSAGE_IFINDEX : Nat := 2
def ZAPI_MESSAGE_DISTANCE : Nat := 4
def ZAPI_MESSAGE_METRIC : Nat := 8

def ZEBRA_FLAG_BLACKHOLE : Nat := 4

/-- macro CHECK_FLAG(V,F) = (V) & (F), used as a truth value. -/
def CHECK_FLAG (v f : Nat) : Bool := v.land f != 0

/-- macro PSIZE(a) = (((a) + 7) / (8)). -/
def PSIZE (a : Nat) : Nat := (a + 7) / 8

/-! ## Streams as byte lists

`struct stream` is modelled by the list of bytes written so far, so
`stream_get_endp s` is `s.length`.  The put operations truncate exactly as
the C types (`u_char`, `u_int16_t`, `u_int32_t`) do. -/

def natBytes2 (v : Nat) : List Nat := [v / 256 % 256, v % 256]

def natBytes4 (v : Nat) : List Nat :=
  [v / 16777216 % 256, v / 65536 % 256, v / 256 % 256, v % 256]

def natBytes16 (v : Nat) : List Nat :=
  (List.range 16).map (fun i => v / 256 ^ (15 - i) % 256)

def stream_putc (s : List Nat) (v : Nat) : List Nat := s ++ [v % 256]

def stream_putw (s : List Nat) (v : Nat) : List Nat := s ++ natBytes2 v

def stream_putl (s : List Nat) (v : Nat) : List Nat := s ++ natBytes4 v

def stream_put (s : List Nat) (bytes : List Nat) : List Nat := s ++ bytes

/-- stream_put_in_addr copies the four bytes of a `struct in_addr`
(network byte order, i.e. big endian). -/
def stream_put_in_addr (s : List Nat) (a : Nat) : List Nat := s ++ natBytes4 a

/-- stream_putw_at overwrites two bytes at `pos` without moving the
write cursor. -/
def stream_putw_at (s : List Nat) (pos v : Nat) : List Nat :=
  s.take pos ++ [v / 256 % 256, v % 256] ++ s.drop (pos + 2)

/-- Value of the big-endian u16 length field at offset 0 of a frame. -/
def lenField (s : List Nat) : Nat := s.getD 0 0 * 256 + s.getD 1 0

theorem length_natBytes2 (v : Nat) : (natBytes2 v).length = 2 := rfl

theorem length_natBytes4 (v : Nat) : (natBytes4 v).length = 4 := rfl

theorem length_natBytes16 (v : Nat) : (natBytes16 v).length = 16 := by
  simp [natBytes16]

theorem length_stream_putc (s : List Nat) (v : Nat) :
    (stream_putc s v).length = s.length + 1 := by
  simp [stream_putc]

theorem length_stream_putw (s : List Nat) (v : Nat) :
    (stream_putw s v).length = s.length + 2 := by
  simp [stream_putw, natBytes2]

theorem length_stream_putl (s : List Nat) (v : Nat) :
    (stream_putl s v).length = s.length + 4 := by
  simp [stream_putl, natBytes4]

theorem length_stream_put (s bytes : List Nat) :
    (stream_put s bytes).length = s.length + bytes.length := by
  simp [stream_put]

theorem length_stream_put_in_addr (s : List Nat) (a : Nat) :
    (stream_put_in_addr s a).length = s.length + 4 := by
  simp [stream_put_in_addr, natBytes4]

/-! ## The fixed header (zclient_create_header) -/

/-- zclient_create_header: length placeholder, marker, version, command. -/
def zclient_create_header (s : List Nat) (command : Nat) : List Nat :=
  stream_putw (stream_putc (stream_putc (stream_putw s ZEBRA_HEADER_SIZE)
    ZEBRA_HEADER_MARKER) ZSERV_VERSION) command

theorem length_zclient_create_header (s : List Nat) (command : Nat) :
    (zclient_create_header s command).length = s.length + 6 := by
  simp [zclient_create_header, length_stream_putw, length_stream_putc]

/-- Patching the length field at offset 0 keeps the frame length. -/
theorem length_stream_putw_at_zero (s : List Nat) (v : Nat) (h2 : 2 ≤ s.length) :
    (stream_putw_at s 0 v).length = s.length := by
  simp [stream_putw_at]
  omega

/-- After patching offset 0 with the stream length, the length field reads
back exactly that length (when it fits in 16 bits). -/
theorem lenField_stream_putw_at (s : List Nat) (v : Nat) (hlt : v < 65536) :
    lenField (stream_putw_at s 0 v) = v := by
  simp [stream_putw_at, lenField, List.getD]
  omega

/-- Patching bytes 0 and 1 does not change the frame past offset 2. -/
theorem drop_stream_putw_at_zero (s : List Nat) (v n : Nat) (h2 : 2 ≤ n) :
    (stream_putw_at s 0 v).drop n = s.drop n := by
  simp only [stream_putw_at, List.take_zero, List.nil_append]
  rw [List.drop_append_eq_append_drop]
  simp only [List.length_cons, List.length_nil]
  rw [List.drop_eq_nil_of_le (by simpa using h2), List.nil_append,
      List.drop_drop]
  congr 1
  omega

/-! ## Outbound message encoders

Each encoder mirrors the corresponding C function on `zclient->obuf`
after the initial `stream_reset`: it builds the body and then patches the
length field at offset 0 with `stream_putw_at (s, 0, stream_get_endp (s))`. -/

/-- Frame of zebra_message_send: bare header, the placeholder length
ZEBRA_HEADER_SIZE is already the correct total length. -/
def zebra_simple_frame (command : Nat) : List Nat :=
  zclient_create_header [] command

/-- Frame built by zebra_hello_send when `redist_default` is set:
header (ZEBRA_HELLO), one byte of route type, then the length patch. -/
def zebra_hello_frame (redist_default : Nat) : List Nat :=
  let s := stream_putc (zclient_create_header [] ZEBRA_HELLO) redist_default
  stream_putw_at s 0 s.length

/-- Frame built by zebra_redistribute_send: header, one byte of route
type, then the length patch. -/
def zebra_redistribute_frame (command type_ : Nat) : List Nat :=
  let s := stream_putc (zclient_create_header [] command) type_
  stream_putw_at s 0 s.length

/-- struct zapi_ipv4; the arrays `nexthop` and `ifindex` are modelled as
lists, so `nexthop_num` is `nexthop.length` and likewise for `ifindex`. -/
structure zapi_ipv4 where
  type : Nat
  flags : Nat
  message : Nat
  safi : Nat
  nexthop : List Nat
  ifindex : List Nat
  distance : Nat
  metric : Nat
deriving DecidableEq

/-- struct zapi_ipv6; nexthops are 128-bit addresses written as 16 raw
bytes. -/
structure zapi_ipv6 where
  type : Nat
  flags : Nat
  message : Nat
  safi : Nat
  nexthop : List Nat
  ifindex : List Nat
  distance : Nat
  metric : Nat
deriving DecidableEq

/-- Loop `for (i = 0; i < api->nexthop_num; i++)` of zapi_ipv4_route:
each entry is a type byte ZEBRA_NEXTHOP_IPV4 and a 4-byte address. -/
def put_ipv4_nexthops (s : List Nat) (ns : List Nat) : List Nat :=
  ns.foldl (fun s a => stream_put_in_addr (stream_putc s ZEBRA_NEXTHOP_IPV4) a) s

/-- Loop `for (i = 0; i < api->ifindex_num; i++)` shared by both route
encoders: a type byte ZEBRA_NEXTHOP_IFINDEX and a 4-byte ifindex. -/
def put_nexthop_ifindexes (s : List Nat) (ifs : List Nat) : List Nat :=
  ifs.foldl (fun s a => stream_putl (stream_putc s ZEBRA_NEXTHOP_IFINDEX) a) s

/-- Loop `for (i = 0; i < api->nexthop_num; i++)` of zapi_ipv6_route:
a type byte ZEBRA_NEXTHOP_IPV6 and 16 raw address bytes. -/
def put_ipv6_nexthops (s : List Nat) (ns : List Nat) : List Nat :=
  ns.foldl (fun s a => stream_put (stream_putc s ZEBRA_NEXTHOP_IPV6) (natBytes16 a)) s

/-- Body of the zapi_ipv4_route frame before the final length patch.
`pfx` is the `struct in_addr` prefix; `stream_put (s, &p->prefix, psize)`
copies its first `psize` bytes. -/
def zapi_ipv4_body (cmd prefixlen pfx : Nat) (api : zapi_ipv4) : List Nat :=
  let s : List Nat := []
  let s := zclient_create_header s cmd
  let s := stream_putc s api.type
  let s := stream_putc s api.flags
  let s := stream_putc s api.message
  let s := stream_putw s api.safi
  let s := stream_putc s prefixlen
  let s := stream_put s ((natBytes4 pfx).take (PSIZE prefixlen))
  let s :=
    if CHECK_FLAG api.message ZAPI_MESSAGE_NEXTHOP then
      let s :=
        if CHECK_FLAG api.flags ZEBRA_FLAG_BLACKHOLE then
          stream_putc (stream_putc s 1) ZEBRA_NEXTHOP_BLACKHOLE
        else
          stream_putc s (api.nexthop.length + api.ifindex.length)
      put_nexthop_ifindexes (put_ipv4_nexthops s api.nexthop) api.ifindex
    else s
  let s := if CHECK_FLAG api.message ZAPI_MESSAGE_DISTANCE then
      stream_putc s api.distance else s
  let s := if CHECK_FLAG api.message ZAPI_MESSAGE_METRIC then
      stream_putl s api.metric else s
  s

/-- Full zapi_ipv4_route frame including the length patch. -/
def zapi_ipv4_route_frame (cmd prefixlen pfx : Nat) (api : zapi_ipv4) : List Nat :=
  let s := zapi_ipv4_body cmd prefixlen pfx api
  stream_putw_at s 0 s.length

/-- Body of the zapi_ipv6_route frame before the final length patch.
`pfx` is the 128-bit `struct in6_addr` prefix. -/
def zapi_ipv6_body (cmd prefixlen pfx : Nat) (api : zapi_ipv6) : List Nat :=
  let s : List Nat := []
  let s := zclient_create_header s cmd
  let s := stream_putc s api.type
  let s := stream_putc s api.flags
  let s := stream_putc s api.message
  let s := stream_putw s api.safi
  let s := stream_putc s prefixlen
  let s := stream_put s ((natBytes16 pfx).take (PSIZE prefixlen))
  let s :=
    if CHECK_FLAG api.message ZAPI_MESSAGE_NEXTHOP then
      let s := stream_putc s (api.nexthop.length + api.ifindex.length)
      put_nexthop_ifindexes (put_ipv6_nexthops s api.nexthop) api.ifindex
    else s
  let s := if CHECK_FLAG api.message ZAPI_MESSAGE_DISTANCE then
      stream_putc s api.distance else s
  let s := if CHECK_FLAG api.message ZAPI_MESSAGE_METRIC then
      stream_putl s api.metric else s
  s

/-- Full zapi_ipv6_route frame including the length patch. -/
def zapi_ipv6_route_frame (cmd prefixlen pfx : Nat) (api : zapi_ipv6) : List Nat :=
  let s := zapi_ipv6_body cmd prefixlen pfx api
  stream_putw_at s 0 s.length

/-! ### Flat byte forms of the nexthop loops -/

/-- Bytes produced by the IPv4 nexthop loop, as a flat list. -/
def ipv4_nexthop_bytes (ns : List Nat) : List Nat :=
  (ns.map (fun a => ZEBRA_NEXTHOP_IPV4 % 256 :: natBytes4 a)).flatten

/-- Bytes produced by the ifindex nexthop loop, as a flat list. -/
def ifindex_nexthop_bytes (ifs : List Nat) : List Nat :=
  (ifs.map (fun a => ZEBRA_NEXTHOP_IFINDEX % 256 :: natBytes4 a)).flatten

/-- Bytes produced by the IPv6 nexthop loop, as a flat list. -/
def ipv6_nexthop_bytes (ns : List Nat) : List Nat :=
  (ns.map (fun a => ZEBRA_NEXTHOP_IPV6 % 256 :: natBytes16 a)).flatten

theorem put_ipv4_nexthops_eq (ns : List Nat) : ∀ s,
    put_ipv4_nexthops s ns = s ++ ipv4_nexthop_bytes ns := by
  induction ns with
  | nil => intro s; simp [put_ipv4_nexthops, ipv4_nexthop_bytes]
  | cons a t ih =>
      intro s
      simp only [put_ipv4_nexthops, List.foldl_cons] at *
      rw [ih]
      simp [ipv4_nexthop_bytes, stream_put_in_addr, stream_putc]

theorem put_nexthop_ifindexes_eq (ifs : List Nat) : ∀ s,
    put_nexthop_ifindexes s ifs = s ++ ifindex_nexthop_bytes ifs := by
  induction ifs with
  | nil => intro s; simp [put_nexthop_ifindexes, ifindex_nexthop_bytes]
  | cons a t ih =>
      intro s
      simp only [put_nexthop_ifindexes, List.foldl_cons] at *
      rw [ih]
      simp [ifindex_nexthop_bytes, stream_putl, stream_putc]

theorem put_ipv6_nexthops_eq (ns : List Nat) : ∀ s,
    put_ipv6_nexthops s ns = s ++ ipv6_nexthop_bytes ns := by
  induction ns with
  | nil => intro s; simp [put_ipv6_nexthops, ipv6_nexthop_bytes]
  | cons a t ih =>
      intro s
      simp only [put_ipv6_nexthops, List.foldl_cons] at *
      rw [ih]
      simp [ipv6_nexthop_bytes, stream_put, stream_putc]

theorem length_ipv4_nexthop_bytes (ns : List Nat) :
    (ipv4_nexthop_bytes ns).length = 5 * ns.length := by
  induction ns with
  | nil => simp [ipv4_nexthop_bytes]
  | cons a t ih =>
      show ((ZEBRA_NEXTHOP_IPV4 % 256 :: natBytes4 a) ++ ipv4_nexthop_bytes t).length
        = 5 * (t.length + 1)
      simp only [List.length_append, List.length_cons, length_natBytes4, ih]
      omega

theorem length_ifindex_nexthop_bytes (ifs : List Nat) :
    (ifindex_nexthop_bytes ifs).length = 5 * ifs.length := by
  induction ifs with
  | nil => simp [ifindex_nexthop_bytes]
  | cons a t ih =>
      show ((ZEBRA_NEXTHOP_IFINDEX % 256 :: natBytes4 a) ++ ifindex_nexthop_bytes t).length
        = 5 * (t.length + 1)
      simp only [List.length_append, List.length_cons, length_natBytes4, ih]
      omega

theorem length_ipv6_nexthop_bytes (ns : List Nat) :
    (ipv6_nexthop_bytes ns).length = 17 * ns.length := by
  induction ns with
  | nil => simp [ipv6_nexthop_bytes]
  | cons a t ih =>
      show ((ZEBRA_NEXTHOP_IPV6 % 256 :: natBytes16 a) ++ ipv6_nexthop_bytes t).length
        = 17 * (t.length + 1)
      simp only [List.length_append, List.length_cons, length_natBytes16, ih]
      omega

/-! ### Structural decomposition of the route bodies -/

/-- Bytes of the zapi_ipv4_route frame up to and including the prefix:
header, type, flags, message, safi, prefix length, prefix bytes. -/
def zapi_ipv4_head (cmd prefixlen pfx : Nat) (api : zapi_ipv4) : List Nat :=
  natBytes2 ZEBRA_HEADER_SIZE ++ [ZEBRA_HEADER_MARKER % 256, ZSERV_VERSION % 256]
  ++ natBytes2 cmd
  ++ [api.type % 256, api.flags % 256, api.message % 256] ++ natBytes2 api.safi
  ++ [prefixlen % 256] ++ (natBytes4 pfx).take (PSIZE prefixlen)

/-- Bytes of the zapi_ipv4_route frame after the nexthop section:
optional distance and optional metric. -/
def zapi_ipv4_tail (api : zapi_ipv4) : List Nat :=
  (if CHECK_FLAG api.message ZAPI_MESSAGE_DISTANCE then [api.distance % 256] else [])
  ++ (if CHECK_FLAG api.message ZAPI_MESSAGE_METRIC then natBytes4 api.metric else [])

theorem length_zapi_ipv4_head (cmd prefixlen pfx : Nat) (api : zapi_ipv4) :
    (zapi_ipv4_head cmd prefixlen pfx api).length = 12 + min (PSIZE prefixlen) 4 := by
  simp [zapi_ipv4_head, natBytes2, length_natBytes4]
  omega

/-- With the NEXTHOP message flag and the BLACKHOLE zebra flag both set,
the body is the head, the count byte 1, the blackhole entry byte, the
IPv4 nexthop entries, the ifindex entries and the tail, in this order. -/
theorem zapi_ipv4_body_blackhole (cmd prefixlen pfx : Nat) (api : zapi_ipv4)
    (hn : CHECK_FLAG api.message ZAPI_MESSAGE_NEXTHOP = true)
    (hb : CHECK_FLAG api.flags ZEBRA_FLAG_BLACKHOLE = true) :
    zapi_ipv4_body cmd prefixlen pfx api =
      zapi_ipv4_head cmd prefixlen pfx api
      ++ [1, ZEBRA_NEXTHOP_BLACKHOLE]
      ++ ipv4_nexthop_bytes api.nexthop
      ++ ifindex_nexthop_bytes api.ifindex
      ++ zapi_ipv4_tail api := by
  have h9 : ZEBRA_NEXTHOP_BLACKHOLE % 256 = ZEBRA_NEXTHOP_BLACKHOLE := rfl
  cases hd : CHECK_FLAG api.message ZAPI_MESSAGE_DISTANCE <;>
    cases hm : CHECK_FLAG api.message ZAPI_MESSAGE_METRIC <;>
      simp [zapi_ipv4_body, zapi_ipv4_head, zapi_ipv4_tail, zclient_create_header,
        stream_putc, stream_putw, stream_putl, stream_put, hn, hb, hd, hm, h9,
        put_ipv4_nexthops_eq, put_nexthop_ifindexes_eq]

/-- Length of the zapi_ipv4_route body in terms of the message flags and
the nexthop and ifindex counts. -/
theorem length_zapi_ipv4_body (cmd prefixlen pfx : Nat) (api : zapi_ipv4) :
    (zapi_ipv4_body cmd prefixlen pfx api).length =
      12 + min (PSIZE prefixlen) 4
      + (if CHECK_FLAG api.message ZAPI_MESSAGE_NEXTHOP then
          (if CHECK_FLAG api.flags ZEBRA_FLAG_BLACKHOLE then 2 else 1)
          + 5 * api.nexthop.length + 5 * api.ifindex.length
        else 0)
      + (if CHECK_FLAG api.message ZAPI_MESSAGE_DISTANCE then 1 else 0)
      + (if CHECK_FLAG api.message ZAPI_MESSAGE_METRIC then 4 else 0) := by
  cases hn : CHECK_FLAG api.message ZAPI_MESSAGE_NEXTHOP <;>
    cases hb : CHECK_FLAG api.flags ZEBRA_FLAG_BLACKHOLE <;>
      cases hd : CHECK_FLAG api.message ZAPI_MESSAGE_DISTANCE <;>
        cases hm : CHECK_FLAG api.message ZAPI_MESSAGE_METRIC <;>
          simp [zapi_ipv4_body, zclient_create_header, stream_putc, stream_putw,
            stream_putl, stream_put, hn, hb, hd, hm,
            put_ipv4_nexthops_eq, put_nexthop_ifindexes_eq,
            length_ipv4_nexthop_bytes, length_ifindex_nexthop_bytes,
            length_natBytes4, natBytes2] <;>
          omega

/-- Length of the zapi_ipv6_route body. -/
theorem length_zapi_ipv6_body (cmd prefixlen pfx : Nat) (api : zapi_ipv6) :
    (zapi_ipv6_body cmd prefixlen pfx api).length =
      12 + min (PSIZE prefixlen) 16
      + (if CHECK_FLAG api.message ZAPI_MESSAGE_NEXTHOP then
          1 + 17 * api.nexthop.length + 5 * api.ifindex.length
        else 0)
      + (if CHECK_FLAG api.message ZAPI_MESSAGE_DISTANCE then 1 else 0)
      + (if CHECK_FLAG api.message ZAPI_MESSAGE_METRIC then 4 else 0) := by
  cases hn : CHECK_FLAG api.message ZAPI_MESSAGE_NEXTHOP <;>
    cases hd : CHECK_FLAG api.message ZAPI_MESSAGE_DISTANCE <;>
      cases hm : CHECK_FLAG api.message ZAPI_MESSAGE_METRIC <;>
        simp [zapi_ipv6_body, zclient_create_header, stream_putc, stream_putw,
          stream_putl, stream_put, hn, hd, hm,
          put_ipv6_nexthops_eq, put_nexthop_ifindexes_eq,
          length_ipv6_nexthop_bytes, length_ifindex_nexthop_bytes,
          length_natBytes16, length_natBytes4, natBytes2] <;>
        omega

/-- Once the length patch is applied to a body of at least two bytes whose
length fits in 16 bits, the emitted length field equals the frame length. -/
theorem length_patch_spec (s : List Nat) (h2 : 2 ≤ s.length)
    (hlt : s.length < 65536) :
    lenField (stream_putw_at s 0 s.length) = (stream_putw_at s 0 s.length).length := by
  rw [length_stream_putw_at_zero s _ h2, lenField_stream_putw_at s _ hlt]

/-- Claim C6: for every outbound message produced by the encoders
(zapi_ipv4_route, zapi_ipv6_route, zebra_redistribute_send,
zebra_hello_send), the big-endian u16 length field at offset 0, patched
after the body is serialized, equals the total number of bytes written to
the output stream, including the 6-byte header (the route encoders need
the frame to fit a 16-bit length, which the two hypotheses state). -/
theorem c6_length_field_equals_frame_length
    (cmd4 prefixlen4 pfx4 : Nat) (api4 : zapi_ipv4)
    (cmd6 prefixlen6 pfx6 : Nat) (api6 : zapi_ipv6) (rcmd rtype d : Nat)
    (h4 : (zapi_ipv4_route_frame cmd4 prefixlen4 pfx4 api4).length < 65536)
    (h6 : (zapi_ipv6_route_frame cmd6 prefixlen6 pfx6 api6).length < 65536) :
    (lenField (zapi_ipv4_route_frame cmd4 prefixlen4 pfx4 api4)
        = (zapi_ipv4_route_frame cmd4 prefixlen4 pfx4 api4).length
      ∧ ZEBRA_HEADER_SIZE ≤ (zapi_ipv4_route_frame cmd4 prefixlen4 pfx4 api4).length)
    ∧ (lenField (zapi_ipv6_route_frame cmd6 prefixlen6 pfx6 api6)
        = (zapi_ipv6_route_frame cmd6 prefixlen6 pfx6 api6).length
      ∧ ZEBRA_HEADER_SIZE ≤ (zapi_ipv6_route_frame cmd6 prefixlen6 pfx6 api6).length)
    ∧ (lenField (zebra_redistribute_frame rcmd rtype)
        = (zebra_redistribute_frame rcmd rtype).length
      ∧ ZEBRA_HEADER_SIZE ≤ (zebra_redistribute_frame rcmd rtype).length)
    ∧ (lenField (zebra_hello_frame d) = (zebra_hello_frame d).length
      ∧ ZEBRA_HEADER_SIZE ≤ (zebra_hello_frame d).length) := by
  have b4 := length_zapi_ipv4_body cmd4 prefixlen4 pfx4 api4
  have h42 : 2 ≤ (zapi_ipv4_body cmd4 prefixlen4 pfx4 api4).length := by
    rw [b4]; split_ifs <;> omega
  have e4 : (zapi_ipv4_route_frame cmd4 prefixlen4 pfx4 api4).length
      = (zapi_ipv4_body cmd4 prefixlen4 pfx4 api4).length :=
    length_stream_putw_at_zero _ _ h42
  have b6 := length_zapi_ipv6_body cmd6 prefixlen6 pfx6 api6
  have h62 : 2 ≤ (zapi_ipv6_body cmd6 prefixlen6 pfx6 api6).length := by
    rw [b6]; split_ifs <;> omega
  have e6 : (zapi_ipv6_route_frame cmd6 prefixlen6 pfx6 api6).length
      = (zapi_ipv6_body cmd6 prefixlen6 pfx6 api6).length :=
    length_stream_putw_at_zero _ _ h62
  have hr : (stream_putc (zclient_create_header [] rcmd) rtype).length = 7 := by
    simp [length_stream_putc, length_zclient_create_header]
  have hh : (stream_putc (zclient_create_header [] ZEBRA_HELLO) d).length = 7 := by
    simp [length_stream_putc, length_zclient_create_header]
  rw [e4] at h4
  rw [e6] at h6
  refine ⟨⟨?_, ?_⟩, ⟨?_, ?_⟩, ⟨?_, ?_⟩, ⟨?_, ?_⟩⟩
  · exact length_patch_spec _ h42 h4
  · rw [e4, b4]; split_ifs <;> simp [ZEBRA_HEADER_SIZE] <;> omega
  · exact length_patch_spec _ h62 h6
  · rw [e6, b6]; split_ifs <;> simp [ZEBRA_HEADER_SIZE] <;> omega
  · exact length_patch_spec _ (by rw [hr]; omega) (by rw [hr]; omega)
  · show ZEBRA_HEADER_SIZE ≤ (stream_putw_at _ 0 _).length
    rw [length_stream_putw_at_zero _ _ (by rw [hr]; omega), hr]
    simp [ZEBRA_HEADER_SIZE]
  · exact length_patch_spec _ (by rw [hh]; omega) (by rw [hh]; omega)
  · show ZEBRA_HEADER_SIZE ≤ (stream_putw_at _ 0 _).length
    rw [length_stream_putw_at_zero _ _ (by rw [hh]; omega), hh]
    simp [ZEBRA_HEADER_SIZE]

/-- Witness for C6 at a concrete route, redistribute and hello frame. -/
theorem c6_length_field_witness :
    ((zapi_ipv4_route_frame ZEBRA_IPV4_ROUTE_ADD 8 167772160
        ⟨9, 0, 1, 1, [167772161], [], 0, 0⟩).length < 65536
      ∧ (zapi_ipv6_route_frame ZEBRA_IPV6_ROUTE_ADD 64 1
        ⟨6, 0, 1, 1, [1], [2], 0, 0⟩).length < 65536)
    ∧ (lenField (zapi_ipv4_route_frame ZEBRA_IPV4_ROUTE_ADD 8 167772160
          ⟨9, 0, 1, 1, [167772161], [], 0, 0⟩)
        = (zapi_ipv4_route_frame ZEBRA_IPV4_ROUTE_ADD 8 167772160
          ⟨9, 0, 1, 1, [167772161], [], 0, 0⟩).length
      ∧ ZEBRA_HEADER_SIZE ≤ (zapi_ipv4_route_frame ZEBRA_IPV4_ROUTE_ADD 8 167772160
          ⟨9, 0, 1, 1, [167772161], [], 0, 0⟩).length) :=
  ⟨⟨by decide, by decide⟩,
    (c6_length_field_equals_frame_length ZEBRA_IPV4_ROUTE_ADD 8 167772160
      ⟨9, 0, 1, 1, [167772161], [], 0, 0⟩ ZEBRA_IPV6_ROUTE_ADD 64 1
      ⟨6, 0, 1, 1, [1], [2], 0, 0⟩ ZEBRA_REDISTRIBUTE_ADD 2 9
      (by decide) (by decide)).1⟩

theorem length_zapi_ipv4_tail (api : zapi_ipv4) :
    (zapi_ipv4_tail api).length =
      (if CHECK_FLAG api.message ZAPI_MESSAGE_DISTANCE then 1 else 0)
      + (if CHECK_FLAG api.message ZAPI_MESSAGE_METRIC then 4 else 0) := by
  simp only [zapi_ipv4_tail, List.length_append]
  split_ifs <;> simp [natBytes4]

/-- Everything of a blackhole-flagged IPv4 route frame after the prefix
bytes: the count byte 1, the blackhole entry byte, then (still) the
nexthop and ifindex entries, then the optional distance and metric. -/
theorem zapi_ipv4_frame_drop_blackhole (cmd plen pfx : Nat) (api : zapi_ipv4)
    (hplen : plen ≤ 32)
    (hn : CHECK_FLAG api.message ZAPI_MESSAGE_NEXTHOP = true)
    (hb : CHECK_FLAG api.flags ZEBRA_FLAG_BLACKHOLE = true) :
    (zapi_ipv4_route_frame cmd plen pfx api).drop (12 + PSIZE plen)
      = [1, ZEBRA_NEXTHOP_BLACKHOLE]
        ++ ipv4_nexthop_bytes api.nexthop
        ++ ifindex_nexthop_bytes api.ifindex
        ++ zapi_ipv4_tail api := by
  have hps : PSIZE plen ≤ 4 := by
    simp only [PSIZE]; omega
  have hd := zapi_ipv4_body_blackhole cmd plen pfx api hn hb
  have hh : (zapi_ipv4_head cmd plen pfx api).length = 12 + PSIZE plen := by
    rw [length_zapi_ipv4_head]; omega
  simp only [zapi_ipv4_route_frame]
  rw [drop_stream_putw_at_zero _ _ _ (by omega), hd, ← hh]
  simp only [List.append_assoc]
  rw [List.drop_left]

/-- Length of a blackhole-flagged IPv4 route frame. -/
theorem zapi_ipv4_frame_length_blackhole (cmd plen pfx : Nat) (api : zapi_ipv4)
    (hplen : plen ≤ 32)
    (hn : CHECK_FLAG api.message ZAPI_MESSAGE_NEXTHOP = true)
    (hb : CHECK_FLAG api.flags ZEBRA_FLAG_BLACKHOLE = true) :
    (zapi_ipv4_route_frame cmd plen pfx api).length
      = 12 + PSIZE plen + 2 + 5 * api.nexthop.length + 5 * api.ifindex.length
        + (zapi_ipv4_tail api).length := by
  have hps : PSIZE plen ≤ 4 := by
    simp only [PSIZE]; omega
  have hb4 := length_zapi_ipv4_body cmd plen pfx api
  simp only [hn, hb, if_true] at hb4
  have h42 : 2 ≤ (zapi_ipv4_body cmd plen pfx api).length := by rw [hb4]; omega
  simp only [zapi_ipv4_route_frame]
  rw [length_stream_putw_at_zero _ _ h42, hb4, length_zapi_ipv4_tail]
  omega

/-- Claim C7: for every call zapi_ipv4_route(ADD, prefix, api) where api
has the NEXTHOP message flag and the BLACKHOLE zebra flag set and
nexthop_num == 0 and ifindex_num == 0, the encoded frame's nexthop
section (starting right after the 12 header and prefix-description bytes
plus the PSIZE(prefixlen) prefix bytes) consists of nexthop_count = 1
followed by a single entry byte ZEBRA_NEXTHOP_BLACKHOLE, with no address
bytes: the remainder of the frame is exactly those two bytes followed by
the optional distance and metric tail. -/
theorem c7_blackhole_route_nexthop_section (plen pfx : Nat) (api : zapi_ipv4)
    (hplen : plen ≤ 32)
    (hn : CHECK_FLAG api.message ZAPI_MESSAGE_NEXTHOP = true)
    (hb : CHECK_FLAG api.flags ZEBRA_FLAG_BLACKHOLE = true)
    (hnum : api.nexthop = []) (hifn : api.ifindex = []) :
    (zapi_ipv4_route_frame ZEBRA_IPV4_ROUTE_ADD plen pfx api).drop (12 + PSIZE plen)
      = [1, ZEBRA_NEXTHOP_BLACKHOLE] ++ zapi_ipv4_tail api
    ∧ (zapi_ipv4_route_frame ZEBRA_IPV4_ROUTE_ADD plen pfx api).length
      = 12 + PSIZE plen + 2 + (zapi_ipv4_tail api).length := by
  constructor
  · rw [zapi_ipv4_frame_drop_blackhole ZEBRA_IPV4_ROUTE_ADD plen pfx api hplen hn hb]
    simp [hnum, hifn, ipv4_nexthop_bytes, ifindex_nexthop_bytes]
  · rw [zapi_ipv4_frame_length_blackhole ZEBRA_IPV4_ROUTE_ADD plen pfx api hplen hn hb,
      hnum, hifn]
    simp

/-- Witness for C7: the spec's scenario, a blackhole route for 10.0.0.0/8
with message = NEXTHOP, no nexthops and no ifindexes. -/
theorem c7_blackhole_route_witness :
    (8 ≤ 32
      ∧ CHECK_FLAG (1 : Nat) ZAPI_MESSAGE_NEXTHOP = true
      ∧ CHECK_FLAG (4 : Nat) ZEBRA_FLAG_BLACKHOLE = true)
    ∧ (zapi_ipv4_route_frame ZEBRA_IPV4_ROUTE_ADD 8 167772160
        ⟨1, 4, 1, 1, [], [], 0, 0⟩).drop (12 + PSIZE 8)
      = [1, ZEBRA_NEXTHOP_BLACKHOLE] ++ zapi_ipv4_tail ⟨1, 4, 1, 1, [], [], 0, 0⟩ :=
  ⟨⟨by decide, by decide, by decide⟩,
    (c7_blackhole_route_nexthop_section 8 167772160 ⟨1, 4, 1, 1, [], [], 0, 0⟩
      (by decide) (by decide) (by decide) rfl rfl).1⟩

/-- Claim C9 (implicit): in zapi_ipv4_route, when the NEXTHOP message
flag and the BLACKHOLE zebra flag are both set but nexthop_num > 0 or
ifindex_num > 0, the encoder writes nexthop_count = 1 and a
NEXTHOP_BLACKHOLE entry and then still appends the nexthop_num
IPv4-nexthop entries and the ifindex_num ifindex entries, so the emitted
entry count 1 + nexthop_num + ifindex_num exceeds the declared
nexthop_count of 1. -/
theorem c9_blackhole_route_extra_entries (cmd plen pfx : Nat) (api : zapi_ipv4)
    (hplen : plen ≤ 32)
    (hn : CHECK_FLAG api.message ZAPI_MESSAGE_NEXTHOP = true)
    (hb : CHECK_FLAG api.flags ZEBRA_FLAG_BLACKHOLE = true)
    (hpos : 0 < api.nexthop.length + api.ifindex.length) :
    (zapi_ipv4_route_frame cmd plen pfx api).drop (12 + PSIZE plen)
      = [1, ZEBRA_NEXTHOP_BLACKHOLE]
        ++ ipv4_nexthop_bytes api.nexthop
        ++ ifindex_nexthop_bytes api.ifindex
        ++ zapi_ipv4_tail api
    ∧ ((zapi_ipv4_route_frame cmd plen pfx api).drop (12 + PSIZE plen)).getD 0 0 = 1
    ∧ 1 < 1 + api.nexthop.length + api.ifindex.length := by
  have hd := zapi_ipv4_frame_drop_blackhole cmd plen pfx api hplen hn hb
  refine ⟨hd, ?_, by omega⟩
  rw [hd]
  rfl

/-- Witness for C9: a blackhole route that also carries one IPv4 nexthop
and one ifindex entry. -/
theorem c9_blackhole_route_witness :
    (8 ≤ 32
      ∧ CHECK_FLAG (1 : Nat) ZAPI_MESSAGE_NEXTHOP = true
      ∧ CHECK_FLAG (4 : Nat) ZEBRA_FLAG_BLACKHOLE = true
      ∧ 0 < ([167772161] : List Nat).length + ([7] : List Nat).length)
    ∧ (zapi_ipv4_route_frame ZEBRA_IPV4_ROUTE_ADD 8 167772160
        ⟨1, 4, 1, 1, [167772161], [7], 0, 0⟩).drop (12 + PSIZE 8)
      = [1, ZEBRA_NEXTHOP_BLACKHOLE]
        ++ ipv4_nexthop_bytes [167772161]
        ++ ifindex_nexthop_bytes [7]
        ++ zapi_ipv4_tail ⟨1, 4, 1, 1, [167772161], [7], 0, 0⟩ :=
  ⟨⟨by decide, by decide, by decide, by decide⟩,
    (c9_blackhole_route_extra_entries ZEBRA_IPV4_ROUTE_ADD 8 167772160
      ⟨1, 4, 1, 1, [167772161], [7], 0, 0⟩
      (by decide) (by decide) (by decide) (by decide)).1⟩

/-! ## The client handle and its observable world

`struct zclient` is modelled by `ZClientState`; the write buffer result
of each socket write is drawn from an oracle `io : Nat -> BufferResult`
indexed by the number of `buffer_write` calls made so far, and the
observable effects (frames accepted by `buffer_write`, events armed via
`zclient_event`, handlers invoked by `zclient_read`) are recorded in
`World`. -/

/-- Result enum of buffer_write / buffer_flush_available. -/
inductive BufferResult where
  | BUFFER_ERROR
  | BUFFER_EMPTY
  | BUFFER_PENDING
deriving DecidableEq

/-- enum event of zclient.c. -/
inductive ZEvent where
  | ZLOOKUP_SCHEDULE
  | ZCLIENT_SCHEDULE
  | ZCLIENT_READ
  | ZCLIENT_CONNECT
deriving DecidableEq

/-- The fields of struct zclient used by the embedded operations.
`ibuf` holds the bytes of the frame being received, `ibufSize` the
current capacity of the input stream, `wbuf` the bytes pending in the
write buffer; `t_connect`, `t_write` and `qtr_active` model the connect
thread, the write thread and the qtimer being armed. -/
structure ZClientState where
  enable : Bool
  sock : Int
  fail : Nat
  redist : Nat → Bool
  redist_default : Nat
  default_information : Bool
  ibuf : List Nat
  ibufSize : Nat
  wbuf : List Nat
  t_connect : Bool
  t_write : Bool
  qtr_active : Bool

/-- A client state together with the record of its observable effects:
the `buffer_write` oracle and call count, the frames accepted by
`buffer_write` in order, the events armed through `zclient_event`, the
registered handler table and the invocations `(command, body_length)`
performed by the dispatcher. -/
structure World where
  st : ZClientState
  io : Nat → BufferResult
  nwrites : Nat
  sent : List (List Nat)
  events : List ZEvent
  handlers : Nat → Bool
  invoked : List (Nat × Nat)

/-- zclient_event: arm an event.  The request is recorded; the timer
arithmetic the two back-ends perform for ZCLIENT_CONNECT is in
`zclient_event_r_connect` and `zclient_event_t_connect` below. -/
def zclient_event (e : ZEvent) (w : World) : World :=
  { w with events := w.events ++ [e] }

/-- zclient_stop: stop threads and timer, reset both streams, empty the
write buffer, close the socket. -/
def zclient_stop_st (st : ZClientState) : ZClientState :=
  { st with t_connect := false, t_write := false, qtr_active := false,
            ibuf := [], wbuf := [], sock := -1 }

/-- zclient_failed: count the failure, stop, and arm ZCLIENT_CONNECT
(the retry event; each back-end's handler applies the backoff policy). -/
def zclient_failed (w : World) : World :=
  zclient_event ZEvent.ZCLIENT_CONNECT
    { w with st := zclient_stop_st { w.st with fail := w.st.fail + 1 } }

/-- zclient_send_message: nothing is written when the socket is closed
(sock < 0); otherwise one buffer_write is attempted, whose outcome is the
oracle value at the current call index.  BUFFER_ERROR fails the client;
BUFFER_EMPTY means the frame went out and the write event is disarmed;
BUFFER_PENDING queues the frame bytes and arms the write event. -/
def zclient_send_message (w : World) (frame : List Nat) : World × Int :=
  if w.st.sock < 0 then (w, -1)
  else
    let w' := { w with nwrites := w.nwrites + 1 }
    match w.io w.nwrites with
    | BufferResult.BUFFER_ERROR => (zclient_failed w', -1)
    | BufferResult.BUFFER_EMPTY =>
        ({ w' with sent := w'.sent ++ [frame],
                   st := { w'.st with t_write := false } }, 0)
    | BufferResult.BUFFER_PENDING =>
        let st' := { w'.st with wbuf := w'.st.wbuf ++ frame, t_write := true }
        ({ w' with sent := w'.sent ++ [frame], st := st' }, 0)

/-- zebra_message_send: reset obuf, write a bare header, send. -/
def zebra_message_send (w : World) (command : Nat) : World × Int :=
  zclient_send_message w (zebra_simple_frame command)

/-- zebra_hello_send: only sends when redist_default is set (non-zero). -/
def zebra_hello_send (w : World) : World × Int :=
  if w.st.redist_default ≠ 0 then
    zclient_send_message w (zebra_hello_frame w.st.redist_default)
  else (w, 0)

/-- zebra_redistribute_send: header plus the route type byte. -/
def zebra_redistribute_send (command : Nat) (w : World) (type_ : Nat) : World × Int :=
  zclient_send_message w (zebra_redistribute_frame command type_)

/-- zclient_init: enable, close the socket slot, clear the redistribution
flags, clear the failure count, register the unwanted default
redistribution type, clear default_information and schedule the first
connection. -/
def zclient_init_st (st : ZClientState) (redist_default : Nat) : ZClientState :=
  { st with enable := true, sock := -1,
            redist := fun t =>
              if t = redist_default then true
              else if t < ZEBRA_ROUTE_MAX then false else st.redist t,
            fail := 0,
            redist_default := redist_default,
            default_information := false }

/-- zclient_init on the world: update the state and arm ZCLIENT_SCHEDULE. -/
def zclient_init (w : World) (redist_default : Nat) : World :=
  zclient_event ZEvent.ZCLIENT_SCHEDULE
    { w with st := zclient_init_st w.st redist_default }

/-- Tail of zclient_start after a successful connect: hello, router-id
request, interface request, one REDISTRIBUTE_ADD per subscribed
non-default route type in ascending order, and the default-information
request.  The sends ignore their return values exactly as the C does. -/
def zclient_start_handshake (w : World) : World :=
  let w := (zebra_hello_send w).1
  let w := (zebra_message_send w ZEBRA_ROUTER_ID_ADD).1
  let w := (zebra_message_send w ZEBRA_INTERFACE_ADD).1
  let w := (List.range ZEBRA_ROUTE_MAX).foldl
    (fun w i =>
      if i ≠ w.st.redist_default ∧ w.st.redist i = true then
        (zebra_redistribute_send ZEBRA_REDISTRIBUTE_ADD w i).1
      else w) w
  if w.st.default_information = true then
    (zebra_message_send w ZEBRA_REDISTRIBUTE_DEFAULT_ADD).1
  else w

/-- zclient_start.  `newSock` is the result of zclient_socket_connect
(negative on connect failure).  On success the failure count is cleared,
the read event armed, and the on-connect handshake is sent. -/
def zclient_start (w : World) (newSock : Int) : World × Int :=
  if w.st.enable = false then (w, 0)
  else if 0 ≤ w.st.sock then (w, 0)
  else if w.st.t_connect then (w, 0)
  else if w.st.qtr_active then (w, 0)
  else if newSock < 0 then
    (zclient_event ZEvent.ZCLIENT_CONNECT
      { w with st := { w.st with sock := -1, fail := w.st.fail + 1 } }, -1)
  else
    (zclient_start_handshake
      (zclient_event ZEvent.ZCLIENT_READ
        { w with st := { w.st with sock := newSock, fail := 0 } }), 0)

/-- zclient_redistribute: set-idempotent bookkeeping on redist[type],
then send the subscribe or unsubscribe message when the socket is up
(sock > 0). -/
def zclient_redistribute (command : Nat) (w : World) (type_ : Nat) : World :=
  if command = ZEBRA_REDISTRIBUTE_ADD then
    if w.st.redist type_ = true then w
    else
      let w := { w with st := { w.st with
        redist := fun t => if t = type_ then true else w.st.redist t } }
      if 0 < w.st.sock then (zebra_redistribute_send command w type_).1 else w
  else
    if w.st.redist type_ = false then w
    else
      let w := { w with st := { w.st with
        redist := fun t => if t = type_ then false else w.st.redist t } }
      if 0 < w.st.sock then (zebra_redistribute_send command w type_).1 else w

/-- zclient_redistribute_default: set-idempotent bookkeeping on
default_information, then send when the socket is up (sock > 0). -/
def zclient_redistribute_default (command : Nat) (w : World) : World :=
  if command = ZEBRA_REDISTRIBUTE_DEFAULT_ADD then
    if w.st.default_information = true then w
    else
      let w := { w with st := { w.st with default_information := true } }
      if 0 < w.st.sock then (zebra_message_send w command).1 else w
  else
    if w.st.default_information = false then w
    else
      let w := { w with st := { w.st with default_information := false } }
      if 0 < w.st.sock then (zebra_message_send w command).1 else w

/-- Commands the dispatcher switch of zclient_read recognises; any other
command falls through the default case and is dropped silently. -/
def zclient_known_commands : List Nat :=
  [ZEBRA_ROUTER_ID_UPDATE, ZEBRA_INTERFACE_ADD, ZEBRA_INTERFACE_DELETE,
   ZEBRA_INTERFACE_ADDRESS_ADD, ZEBRA_INTERFACE_ADDRESS_DELETE,
   ZEBRA_INTERFACE_UP, ZEBRA_INTERFACE_DOWN,
   ZEBRA_IPV4_ROUTE_ADD, ZEBRA_IPV4_ROUTE_DELETE,
   ZEBRA_IPV6_ROUTE_ADD, ZEBRA_IPV6_ROUTE_DELETE]

/-- Dispatch phase of zclient_read: look the command up in the handler
table, invoke it with the body length, then (unless a handler closed the
socket) reset the input stream and re-arm the read event. -/
def zclient_dispatch (w : World) : World × Int :=
  let ib := w.st.ibuf
  let length := ib.getD 0 0 * 256 + ib.getD 1 0
  let command := ib.getD 4 0 * 256 + ib.getD 5 0
  let w :=
    if command ∈ zclient_known_commands ∧ w.handlers command = true then
      { w with invoked := w.invoked ++ [(command, length - ZEBRA_HEADER_SIZE)] }
    else w
  if w.st.sock < 0 then (w, -1)
  else (zclient_event ZEvent.ZCLIENT_READ { w with st := { w.st with ibuf := [] } }, 0)

/-- Body phase of zclient_read, entered once the six header bytes are in
ibuf: validate marker, version and the length field, grow the input
stream if the frame exceeds its size, finish reading the body from the
remaining socket bytes `rest`, and dispatch. -/
def zclient_read_body (w : World) (rest : List Nat) : World × Int :=
  let ib := w.st.ibuf
  let length := ib.getD 0 0 * 256 + ib.getD 1 0
  let marker := ib.getD 2 0
  let version := ib.getD 3 0
  if marker ≠ ZEBRA_HEADER_MARKER ∨ version ≠ ZSERV_VERSION then
    (zclient_failed w, -1)
  else if length < ZEBRA_HEADER_SIZE then
    (zclient_failed w, -1)
  else
    let w := if w.st.ibufSize < length then
        { w with st := { w.st with ibufSize := length } }
      else w
    let already := w.st.ibuf.length
    if already < length then
      let want := length - already
      let got := rest.take want
      if got.length = 0 then (zclient_failed w, -1)
      else if got.length ≠ want then
        (zclient_event ZEvent.ZCLIENT_READ
          { w with st := { w.st with ibuf := w.st.ibuf ++ got } }, 0)
      else zclient_dispatch { w with st := { w.st with ibuf := w.st.ibuf ++ got } }
    else zclient_dispatch w

/-- zclient_read.  `input` is the byte sequence currently obtainable from
the socket; an empty read models stream_read_try returning 0 or -1
(connection closed), a short read re-arms the read event and keeps the
partial bytes in ibuf for the next callback. -/
def zclient_read (w : World) (input : List Nat) : World × Int :=
  let already := w.st.ibuf.length
  if already < ZEBRA_HEADER_SIZE then
    let want := ZEBRA_HEADER_SIZE - already
    let got := input.take want
    if got.length = 0 then (zclient_failed w, -1)
    else if got.length ≠ want then
      (zclient_event ZEvent.ZCLIENT_READ
        { w with st := { w.st with ibuf := w.st.ibuf ++ got } }, 0)
    else zclient_read_body
      { w with st := { w.st with ibuf := w.st.ibuf ++ got } } (input.drop want)
  else zclient_read_body w input

/-! ## The connect-retry backoff of the two back-ends -/

/-- ZCLIENT_CONNECT case of zclient_event_r (nexus back-end): the delay
in seconds of the retry timer it arms, none when fail >= 10 or when the
timer is already active. -/
def zclient_event_r_connect (fail : Nat) (qtr_active : Bool) : Option Nat :=
  if 10 ≤ fail then none
  else if qtr_active then none
  else some (if fail < 3 then 10 else 60)

/-- ZCLIENT_CONNECT case of zclient_event_t (thread back-end): the delay
in seconds of the retry timer it arms, none when fail >= 10 or when a
connect thread is already pending. -/
def zclient_event_t_connect (fail : Nat) (t_connect : Bool) : Option Nat :=
  if 10 ≤ fail then none
  else if t_connect then none
  else some (if fail < 3 then 10 else 60)

/-- A zeroed client handle as built by zclient_new (XCALLOC plus
sock = -1 and the stream allocations). -/
def zclient_new_st : ZClientState :=
  { enable := false, sock := -1, fail := 0, redist := fun _ => false,
    redist_default := 0, default_information := false,
    ibuf := [], ibufSize := ZEBRA_MAX_PACKET_SIZ, wbuf := [],
    t_connect := false, t_write := false, qtr_active := false }

/-- A fresh world around a new handle: a buffer_write oracle, an empty
effect record and a handler table. -/
def zclient_new_world (io : Nat → BufferResult) (handlers : Nat → Bool) : World :=
  { st := zclient_new_st, io := io, nwrites := 0, sent := [], events := [],
    handlers := handlers, invoked := [] }

/-- The world right after zclient_init on a fresh handle. -/
def zclient_init_world (redist_default : Nat) (io : Nat → BufferResult)
    (handlers : Nat → Bool) : World :=
  zclient_init (zclient_new_world io handlers) redist_default

/-- Claim C8: zclient_redistribute is set-idempotent.  On a connected
client (sock > 0) whose write succeeds, adding a not-yet-subscribed type
t sends exactly one redistribute message, a second identical ADD call
returns the world unchanged (no state change, no I/O), and a DELETE for
an unsubscribed type returns the world unchanged (no message, no state
change). -/
theorem c8_redistribute_set_idempotent (w : World) (t : Nat)
    (h1 : w.st.redist t = false) (h2 : 0 < w.st.sock)
    (h3 : w.io w.nwrites ≠ BufferResult.BUFFER_ERROR) :
    (zclient_redistribute ZEBRA_REDISTRIBUTE_ADD w t).sent
      = w.sent ++ [zebra_redistribute_frame ZEBRA_REDISTRIBUTE_ADD t]
    ∧ zclient_redistribute ZEBRA_REDISTRIBUTE_ADD
        (zclient_redistribute ZEBRA_REDISTRIBUTE_ADD w t) t
      = zclient_redistribute ZEBRA_REDISTRIBUTE_ADD w t
    ∧ zclient_redistribute ZEBRA_REDISTRIBUTE_DELETE w t = w := by
  have hns : ¬ w.st.sock < 0 := by omega
  refine ⟨?_, ?_, ?_⟩
  · cases hio : w.io w.nwrites with
    | BUFFER_ERROR => exact absurd hio h3
    | BUFFER_EMPTY =>
        simp [zclient_redistribute, zebra_redistribute_send,
          zclient_send_message, h1, h2, hns, hio]
    | BUFFER_PENDING =>
        simp [zclient_redistribute, zebra_redistribute_send,
          zclient_send_message, h1, h2, hns, hio]
  · cases hio : w.io w.nwrites with
    | BUFFER_ERROR => exact absurd hio h3
    | BUFFER_EMPTY =>
        simp [zclient_redistribute, zebra_redistribute_send,
          zclient_send_message, h1, h2, hns, hio]
    | BUFFER_PENDING =>
        simp [zclient_redistribute, zebra_redistribute_send,
          zclient_send_message, h1, h2, hns, hio]
  · rw [zclient_redistribute, if_neg (by decide), if_pos h1]

/-- A connected client state used as the C8 witness: socket up,
subscribed only to its own default type 9. -/
@[reducible] def c8State : ZClientState :=
  { enable := true, sock := 1, fail := 0, redist := fun t => decide (t = 9),
    redist_default := 9, default_information := false,
    ibuf := [], ibufSize := 4096, wbuf := [],
    t_connect := false, t_write := false, qtr_active := false }

/-- The C8 witness world: successful buffer writes, no effects yet. -/
@[reducible] def c8World : World :=
  { st := c8State, io := fun _ => BufferResult.BUFFER_EMPTY, nwrites := 0,
    sent := [], events := [], handlers := fun _ => false, invoked := [] }

/-- Witness for C8 at route type 2 on a connected client. -/
theorem c8_redistribute_set_idempotent_witness :
    (c8World.st.redist 2 = false ∧ 0 < c8World.st.sock
      ∧ c8World.io c8World.nwrites ≠ BufferResult.BUFFER_ERROR)
    ∧ (zclient_redistribute ZEBRA_REDISTRIBUTE_ADD c8World 2).sent
      = c8World.sent ++ [zebra_redistribute_frame ZEBRA_REDISTRIBUTE_ADD 2] :=
  ⟨⟨by decide, by decide, by decide⟩,
    (c8_redistribute_set_idempotent c8World 2 (by decide) (by decide)
      (by decide)).1⟩

/-- Claim C10 (implicit): zclient_redistribute and
zclient_redistribute_default send only when sock > 0, while
zclient_send_message treats any sock >= 0 as connected; hence on a
connection whose descriptor is 0 the two operations update the local
subscription state but emit nothing and attempt no buffer write, even
though zclient_send_message itself would attempt a buffer write on that
same descriptor. -/
theorem c10_sock_zero_guard_mismatch (w : World) (t : Nat) (frame : List Nat)
    (h0 : w.st.sock = 0) (h1 : w.st.redist t = false)
    (hd : w.st.default_information = false) :
    (zclient_redistribute ZEBRA_REDISTRIBUTE_ADD w t).st.redist t = true
    ∧ (zclient_redistribute ZEBRA_REDISTRIBUTE_ADD w t).sent = w.sent
    ∧ (zclient_redistribute ZEBRA_REDISTRIBUTE_ADD w t).nwrites = w.nwrites
    ∧ (zclient_redistribute_default ZEBRA_REDISTRIBUTE_DEFAULT_ADD w).st.default_information = true
    ∧ (zclient_redistribute_default ZEBRA_REDISTRIBUTE_DEFAULT_ADD w).sent = w.sent
    ∧ (zclient_redistribute_default ZEBRA_REDISTRIBUTE_DEFAULT_ADD w).nwrites = w.nwrites
    ∧ (zclient_send_message w frame).1.nwrites = w.nwrites + 1 := by
  have hnpos : ¬ (0 : Int) < w.st.sock := by omega
  have hns : ¬ w.st.sock < 0 := by omega
  refine ⟨?_, ?_, ?_, ?_, ?_, ?_, ?_⟩
  · simp [zclient_redistribute, h1, hnpos]
  · simp [zclient_redistribute, h1, hnpos]
  · simp [zclient_redistribute, h1, hnpos]
  · simp [zclient_redistribute_default, hd, hnpos]
  · simp [zclient_redistribute_default, hd, hnpos]
  · simp [zclient_redistribute_default, hd, hnpos]
  · cases hio : w.io w.nwrites with
    | BUFFER_ERROR =>
        simp [zclient_send_message, hns, hio, zclient_failed, zclient_event]
    | BUFFER_EMPTY => simp [zclient_send_message, hns, hio]
    | BUFFER_PENDING => simp [zclient_send_message, hns, hio]

/-- A client state whose socket descriptor is 0, used as the C10 witness. -/
@[reducible] def c10State : ZClientState :=
  { enable := true, sock := 0, fail := 0, redist := fun t => decide (t = 9),
    redist_default := 9, default_information := false,
    ibuf := [], ibufSize := 4096, wbuf := [],
    t_connect := false, t_write := false, qtr_active := false }

/-- The C10 witness world. -/
@[reducible] def c10World : World :=
  { st := c10State, io := fun _ => BufferResult.BUFFER_EMPTY, nwrites := 0,
    sent := [], events := [], handlers := fun _ => false, invoked := [] }

/-- Witness for C10 on a descriptor-0 connection at route type 2. -/
theorem c10_sock_zero_guard_mismatch_witness :
    (c10World.st.sock = 0 ∧ c10World.st.redist 2 = false
      ∧ c10World.st.default_information = false)
    ∧ (zclient_redistribute ZEBRA_REDISTRIBUTE_ADD c10World 2).st.redist 2 = true :=
  ⟨⟨by decide, by decide, by decide⟩,
    (c10_sock_zero_guard_mismatch c10World 2 (zebra_simple_frame ZEBRA_ROUTER_ID_ADD)
      (by decide) (by decide) (by decide)).1⟩

/-- The observable effect of zclient_failed: one more failure counted,
socket closed, both buffers reset, the retry event ZCLIENT_CONNECT armed,
and nothing sent or dispatched. -/
theorem zclient_failed_spec (w : World) :
    (zclient_failed w).st.sock = -1
    ∧ (zclient_failed w).st.fail = w.st.fail + 1
    ∧ (zclient_failed w).st.ibuf = []
    ∧ (zclient_failed w).st.wbuf = []
    ∧ (zclient_failed w).events = w.events ++ [ZEvent.ZCLIENT_CONNECT]
    ∧ (zclient_failed w).invoked = w.invoked
    ∧ (zclient_failed w).sent = w.sent := by
  simp [zclient_failed, zclient_stop_st, zclient_event]

/-- Claim C2: for every received frame whose 6-byte header has marker
different from 0xFF, or version different from 2, or length field below
HEADER_SIZE (6), zclient_read transitions the client to the failed state
(fail incremented, socket closed, buffers reset, and the connect-retry
event ZCLIENT_CONNECT armed, whose back-end handlers schedule the retry
under the backoff policy) and invokes no registered handler for that
frame. -/
theorem c2_bad_header_fails_without_handler (w : World) (input : List Nat)
    (hfresh : w.st.ibuf = [])
    (hlen : ZEBRA_HEADER_SIZE ≤ input.length)
    (hbad : input.getD 2 0 ≠ ZEBRA_HEADER_MARKER ∨ input.getD 3 0 ≠ ZSERV_VERSION
      ∨ input.getD 0 0 * 256 + input.getD 1 0 < ZEBRA_HEADER_SIZE) :
    (zclient_read w input).1.st.sock = -1
    ∧ (zclient_read w input).1.st.fail = w.st.fail + 1
    ∧ (zclient_read w input).1.st.ibuf = []
    ∧ (zclient_read w input).1.st.wbuf = []
    ∧ (zclient_read w input).1.events = w.events ++ [ZEvent.ZCLIENT_CONNECT]
    ∧ (zclient_read w input).1.invoked = w.invoked
    ∧ (zclient_read w input).1.sent = w.sent
    ∧ (zclient_read w input).2 = -1 := by
  have hg : ∀ i, i < 6 → (input.take 6).getD i 0 = input.getD i 0 := by
    intro i hi
    simp [List.getD_eq_getElem?_getD, List.getElem?_take, hi]
  have h6 : (input.take 6).length = 6 := by
    rw [List.length_take]
    simp only [ZEBRA_HEADER_SIZE] at hlen
    omega
  have hstep : zclient_read w input
      = zclient_read_body { w with st := { w.st with ibuf := input.take 6 } }
          (input.drop 6) := by
    unfold zclient_read
    rw [hfresh]
    simp [ZEBRA_HEADER_SIZE, h6]
  rw [hstep]
  unfold zclient_read_body
  simp only [hg 0 (by omega), hg 1 (by omega), hg 2 (by omega), hg 3 (by omega), h6]
  by_cases hmv : input.getD 2 0 ≠ ZEBRA_HEADER_MARKER ∨ input.getD 3 0 ≠ ZSERV_VERSION
  · rw [if_pos hmv]
    simp [zclient_failed, zclient_stop_st, zclient_event]
  · push_neg at hmv
    have hl : input.getD 0 0 * 256 + input.getD 1 0 < ZEBRA_HEADER_SIZE := by
      rcases hbad with h | h | h
      · exact absurd hmv.1 h
      · exact absurd hmv.2 h
      · exact h
    rw [if_neg (by push_neg; exact hmv), if_pos hl]
    simp [zclient_failed, zclient_stop_st, zclient_event]

/-- A connected idle client used as the C2 witness. -/
@[reducible] def c2World : World :=
  { st := { enable := true, sock := 1, fail := 0,
            redist := fun t => decide (t = 9), redist_default := 9,
            default_information := false, ibuf := [], ibufSize := 4096,
            wbuf := [], t_connect := false, t_write := false,
            qtr_active := false },
    io := fun _ => BufferResult.BUFFER_EMPTY, nwrites := 0, sent := [],
    events := [], handlers := fun c => decide (c = ZEBRA_ROUTER_ID_UPDATE),
    invoked := [] }

/-- Witness for C2: a frame with marker 0xFE instead of 0xFF. -/
theorem c2_bad_header_witness :
    (c2World.st.ibuf = ([] : List Nat)
      ∧ ZEBRA_HEADER_SIZE ≤ ([0, 7, 254, 2, 0, 22, 0] : List Nat).length
      ∧ ([0, 7, 254, 2, 0, 22, 0] : List Nat).getD 2 0 ≠ ZEBRA_HEADER_MARKER)
    ∧ (zclient_read c2World [0, 7, 254, 2, 0, 22, 0]).1.st.sock = -1 :=
  ⟨⟨by decide, by decide, by decide⟩,
    (c2_bad_header_fails_without_handler c2World [0, 7, 254, 2, 0, 22, 0]
      (by decide) (by decide) (Or.inl (by decide))).1⟩

/-- k consecutive connect attempts that all fail
(zclient_socket_connect returning -1 each time). -/
def iterate_connect_fail (w : World) : Nat → World
  | 0 => w
  | k + 1 => iterate_connect_fail ((zclient_start w (-1)).1) k

/-- Across k failing connect attempts the failure counter increases by
one per attempt, the handle stays enabled and disconnected, and each
attempt arms one ZCLIENT_CONNECT retry event. -/
theorem iterate_connect_fail_spec (k : Nat) : ∀ w : World,
    w.st.enable = true → w.st.sock < 0 → w.st.t_connect = false →
    w.st.qtr_active = false →
    (iterate_connect_fail w k).st.fail = w.st.fail + k
    ∧ (iterate_connect_fail w k).st.enable = true
    ∧ (iterate_connect_fail w k).st.sock < 0
    ∧ (iterate_connect_fail w k).st.t_connect = false
    ∧ (iterate_connect_fail w k).st.qtr_active = false
    ∧ (iterate_connect_fail w k).events
      = w.events ++ List.replicate k ZEvent.ZCLIENT_CONNECT := by
  induction k with
  | zero =>
      intro w h1 h2 h3 h4
      simp [iterate_connect_fail, h1, h2, h3, h4]
  | succ k ih =>
      intro w h1 h2 h3 h4
      have h2' : ¬ (0 : Int) ≤ w.st.sock := by omega
      have hstep : (zclient_start w (-1)).1
          = zclient_event ZEvent.ZCLIENT_CONNECT
              { w with st := { w.st with sock := -1, fail := w.st.fail + 1 } } := by
        unfold zclient_start
        simp [h1, h2', h3, h4]
      have heq : iterate_connect_fail w (k + 1)
          = iterate_connect_fail ((zclient_start w (-1)).1) k := rfl
      rw [heq, hstep]
      have hres := ih (zclient_event ZEvent.ZCLIENT_CONNECT
          { w with st := { w.st with sock := -1, fail := w.st.fail + 1 } })
        (by simp [zclient_event, h1]) (by simp [zclient_event])
        (by simp [zclient_event, h3]) (by simp [zclient_event, h4])
      refine ⟨?_, hres.2.1, hres.2.2.1, hres.2.2.2.1, hres.2.2.2.2.1, ?_⟩
      · rw [hres.1]; simp [zclient_event]; omega
      · rw [hres.2.2.2.2.2]
        simp [zclient_event, List.replicate_succ]

/-- Claim C3: after k consecutive connect failures (from a freshly
initialized client) the failure counter equals k, and the k-th retry is
scheduled identically by the nexus back-end (zclient_event_r) and the
thread back-end (zclient_event_t): with a 10 second delay when k < 3,
a 60 second delay when 3 <= k < 10, and not at all once k >= 10. -/
theorem c3_connect_retry_backoff (d k : Nat) (io : Nat → BufferResult)
    (handlers : Nat → Bool) (hk : 1 ≤ k) :
    (iterate_connect_fail (zclient_init_world d io handlers) k).st.fail = k
    ∧ zclient_event_r_connect k false = zclient_event_t_connect k false
    ∧ (k < 3 → zclient_event_r_connect k false = some 10)
    ∧ (3 ≤ k → k < 10 → zclient_event_r_connect k false = some 60)
    ∧ (10 ≤ k → zclient_event_r_connect k false = none)
    ∧ (k < 3 → zclient_event_t_connect k false = some 10)
    ∧ (3 ≤ k → k < 10 → zclient_event_t_connect k false = some 60)
    ∧ (10 ≤ k → zclient_event_t_connect k false = none) := by
  have hinit := iterate_connect_fail_spec k (zclient_init_world d io handlers)
    (by simp [zclient_init_world, zclient_init, zclient_init_st,
      zclient_new_world, zclient_new_st, zclient_event])
    (by simp [zclient_init_world, zclient_init, zclient_init_st,
      zclient_new_world, zclient_new_st, zclient_event])
    (by simp [zclient_init_world, zclient_init, zclient_init_st,
      zclient_new_world, zclient_new_st, zclient_event])
    (by simp [zclient_init_world, zclient_init, zclient_init_st,
      zclient_new_world, zclient_new_st, zclient_event])
  refine ⟨?_, rfl, ?_, ?_, ?_, ?_, ?_, ?_⟩
  · rw [hinit.1]
    simp [zclient_init_world, zclient_init, zclient_init_st,
      zclient_new_world, zclient_new_st, zclient_event]
  · intro h
    rw [zclient_event_r_connect, if_neg (by omega), if_neg (by simp), if_pos h]
  · intro h3 h10
    rw [zclient_event_r_connect, if_neg (by omega), if_neg (by simp),
      if_neg (by omega)]
  · intro h
    rw [zclient_event_r_connect, if_pos h]
  · intro h
    rw [zclient_event_t_connect, if_neg (by omega), if_neg (by simp), if_pos h]
  · intro h3 h10
    rw [zclient_event_t_connect, if_neg (by omega), if_neg (by simp),
      if_neg (by omega)]
  · intro h
    rw [zclient_event_t_connect, if_pos h]

/-- Witness for C3: eleven consecutive failures from a fresh client. -/
theorem c3_connect_retry_backoff_witness :
    1 ≤ 11
    ∧ (iterate_connect_fail (zclient_init_world 9
        (fun _ => BufferResult.BUFFER_EMPTY) (fun _ => false)) 11).st.fail = 11 :=
  ⟨by decide,
    (c3_connect_retry_backoff 9 11 (fun _ => BufferResult.BUFFER_EMPTY)
      (fun _ => false) (by decide)).1⟩

/-! ## Sequencing of socket writes -/

/-- The prefix of a planned list of frames that the write buffer accepts:
frames are offered in order, each consuming one oracle outcome starting
at call index n0, and the first BUFFER_ERROR cuts the sequence (after the
error the socket is closed, so nothing later is written). -/
def frames_accepted (io : Nat → BufferResult) (n0 : Nat) :
    List (List Nat) → List (List Nat)
  | [] => []
  | f :: fs =>
      if io n0 = BufferResult.BUFFER_ERROR then []
      else f :: frames_accepted io (n0 + 1) fs

/-- Sequential zclient_send_message calls over a list of frames. -/
def zclient_send_list (w : World) (frames : List (List Nat)) : World :=
  frames.foldl (fun w f => (zclient_send_message w f).1) w

theorem zclient_send_list_nil (w : World) : zclient_send_list w [] = w := rfl

theorem zclient_send_list_cons (w : World) (f : List Nat) (fs : List (List Nat)) :
    zclient_send_list w (f :: fs)
      = zclient_send_list (zclient_send_message w f).1 fs := rfl

theorem zclient_send_list_append (w : World) (a b : List (List Nat)) :
    zclient_send_list w (a ++ b) = zclient_send_list (zclient_send_list w a) b := by
  simp [zclient_send_list, List.foldl_append]

/-- With the socket closed, zclient_send_message returns -1 untouched. -/
theorem zclient_send_message_closed (w : World) (f : List Nat)
    (h : w.st.sock < 0) : zclient_send_message w f = (w, -1) := by
  unfold zclient_send_message
  rw [if_pos h]

theorem zclient_send_list_closed (frames : List (List Nat)) : ∀ w : World,
    w.st.sock < 0 → zclient_send_list w frames = w := by
  induction frames with
  | nil => intro w _; rfl
  | cons f fs ih =>
      intro w h
      rw [zclient_send_list_cons, zclient_send_message_closed w f h]
      exact ih w h

/-- zclient_send_message never touches the oracle, the handler table, the
dispatch record, or the redistribution bookkeeping. -/
theorem zclient_send_message_preserves (w : World) (f : List Nat) :
    (zclient_send_message w f).1.io = w.io
    ∧ (zclient_send_message w f).1.handlers = w.handlers
    ∧ (zclient_send_message w f).1.invoked = w.invoked
    ∧ (zclient_send_message w f).1.st.redist = w.st.redist
    ∧ (zclient_send_message w f).1.st.redist_default = w.st.redist_default
    ∧ (zclient_send_message w f).1.st.default_information = w.st.default_information
    ∧ (zclient_send_message w f).1.st.enable = w.st.enable := by
  by_cases h : w.st.sock < 0
  · rw [zclient_send_message_closed w f h]
    exact ⟨rfl, rfl, rfl, rfl, rfl, rfl, rfl⟩
  · cases hio : w.io w.nwrites <;>
      simp [zclient_send_message, h, hio, zclient_failed, zclient_stop_st,
        zclient_event]

theorem zclient_send_list_preserves (frames : List (List Nat)) : ∀ w : World,
    (zclient_send_list w frames).io = w.io
    ∧ (zclient_send_list w frames).handlers = w.handlers
    ∧ (zclient_send_list w frames).invoked = w.invoked
    ∧ (zclient_send_list w frames).st.redist = w.st.redist
    ∧ (zclient_send_list w frames).st.redist_default = w.st.redist_default
    ∧ (zclient_send_list w frames).st.default_information = w.st.default_information
    ∧ (zclient_send_list w frames).st.enable = w.st.enable := by
  induction frames with
  | nil => intro w; exact ⟨rfl, rfl, rfl, rfl, rfl, rfl, rfl⟩
  | cons f fs ih =>
      intro w
      rw [zclient_send_list_cons]
      obtain ⟨a1, a2, a3, a4, a5, a6, a7⟩ := zclient_send_message_preserves w f
      obtain ⟨b1, b2, b3, b4, b5, b6, b7⟩ := ih (zclient_send_message w f).1
      exact ⟨b1.trans a1, b2.trans a2, b3.trans a3, b4.trans a4, b5.trans a5,
        b6.trans a6, b7.trans a7⟩

/-- Running zclient_send_message over a planned list of frames on an open
socket: the frames that reach the wire are exactly the error-cut prefix
`frames_accepted`; if every frame is accepted the connection state is
untouched, otherwise the client has failed once (socket closed, fail
incremented, retry event armed). -/
theorem zclient_send_list_spec (frames : List (List Nat)) : ∀ w : World,
    0 ≤ w.st.sock →
    ((zclient_send_list w frames).sent
      = w.sent ++ frames_accepted w.io w.nwrites frames)
    ∧ (frames_accepted w.io w.nwrites frames = frames →
        (zclient_send_list w frames).st.sock = w.st.sock
        ∧ (zclient_send_list w frames).st.fail = w.st.fail
        ∧ (zclient_send_list w frames).events = w.events)
    ∧ (frames_accepted w.io w.nwrites frames ≠ frames →
        (zclient_send_list w frames).st.sock = -1
        ∧ (zclient_send_list w frames).st.fail = w.st.fail + 1
        ∧ (zclient_send_list w frames).events
          = w.events ++ [ZEvent.ZCLIENT_CONNECT]) := by
  induction frames with
  | nil =>
      intro w _
      refine ⟨by simp [zclient_send_list_nil, frames_accepted], ?_, ?_⟩
      · intro _; exact ⟨rfl, rfl, rfl⟩
      · intro h; exact absurd rfl h
  | cons f fs ih =>
      intro w hsock
      have hns : ¬ w.st.sock < 0 := by omega
      by_cases hio : w.io w.nwrites = BufferResult.BUFFER_ERROR
      · have hmsg : zclient_send_message w f
            = (zclient_failed { w with nwrites := w.nwrites + 1 }, -1) := by
          simp [zclient_send_message, hns, hio]
        have hacc : frames_accepted w.io w.nwrites (f :: fs) = [] := by
          simp [frames_accepted, hio]
        have hclosed : zclient_send_list
            (zclient_failed { w with nwrites := w.nwrites + 1 }) fs
            = zclient_failed { w with nwrites := w.nwrites + 1 } := by
          apply zclient_send_list_closed
          simp [zclient_failed, zclient_stop_st, zclient_event]
        rw [zclient_send_list_cons, hmsg]
        refine ⟨?_, ?_, ?_⟩
        · rw [hacc]
          simp only [hclosed]
          simp [zclient_failed, zclient_stop_st, zclient_event]
        · intro h
          rw [hacc] at h
          simp at h
        · intro _
          simp only [hclosed]
          simp [zclient_failed, zclient_stop_st, zclient_event]
      · have hacc : frames_accepted w.io w.nwrites (f :: fs)
            = f :: frames_accepted w.io (w.nwrites + 1) fs := by
          simp [frames_accepted, hio]
        have hw1 : (zclient_send_message w f).1.sent = w.sent ++ [f]
            ∧ (zclient_send_message w f).1.st.sock = w.st.sock
            ∧ (zclient_send_message w f).1.st.fail = w.st.fail
            ∧ (zclient_send_message w f).1.events = w.events
            ∧ (zclient_send_message w f).1.io = w.io
            ∧ (zclient_send_message w f).1.nwrites = w.nwrites + 1 := by
          cases hio2 : w.io w.nwrites
          · exact absurd hio2 hio
          · simp [zclient_send_message, hns, hio2]
          · simp [zclient_send_message, hns, hio2]
        obtain ⟨hs, hk, hfl, hev, hioeq, hnw⟩ := hw1
        have hrec := ih (zclient_send_message w f).1 (by rw [hk]; exact hsock)
        rw [hioeq, hnw, hs, hk, hfl, hev] at hrec
        rw [zclient_send_list_cons]
        refine ⟨?_, ?_, ?_⟩
        · rw [hrec.1, hacc]
          simp
        · intro h
          rw [hacc] at h
          injection h with _ h'
          exact hrec.2.1 h'
        · intro h
          have h' : frames_accepted w.io (w.nwrites + 1) fs ≠ fs := by
            intro he
            exact h (by rw [hacc, he])
          exact hrec.2.2 h'

/-- The redistribute flush loop of zclient_start equals sending the
REDISTRIBUTE_ADD frames of the subscribed non-default route types of the
starting world, in ascending order. -/
theorem foldl_redistribute_eq_send_list (l : List Nat) : ∀ w : World,
    l.foldl (fun w i =>
        if i ≠ w.st.redist_default ∧ w.st.redist i = true then
          (zebra_redistribute_send ZEBRA_REDISTRIBUTE_ADD w i).1
        else w) w
      = zclient_send_list w
          ((l.filter (fun i => decide (i ≠ w.st.redist_default) && w.st.redist i)).map
            (zebra_redistribute_frame ZEBRA_REDISTRIBUTE_ADD)) := by
  induction l with
  | nil => intro w; rfl
  | cons i l ih =>
      intro w
      by_cases hc : i ≠ w.st.redist_default ∧ w.st.redist i = true
      · have hcb : (decide (i ≠ w.st.redist_default) && w.st.redist i) = true := by
          simp [hc.1, hc.2]
        rw [List.foldl_cons, if_pos hc]
        have hfe : (i :: l).filter
            (fun i => decide (i ≠ w.st.redist_default) && w.st.redist i)
            = i :: l.filter (fun i => decide (i ≠ w.st.redist_default) && w.st.redist i) := by
          simp only [List.filter_cons]
          rw [hcb]
          simp
        rw [hfe, List.map_cons, zclient_send_list_cons]
        have hp1 : (zebra_redistribute_send ZEBRA_REDISTRIBUTE_ADD w i).1.st.redist_default
            = w.st.redist_default :=
          (zclient_send_message_preserves w
            (zebra_redistribute_frame ZEBRA_REDISTRIBUTE_ADD i)).2.2.2.2.1
        have hp2 : (zebra_redistribute_send ZEBRA_REDISTRIBUTE_ADD w i).1.st.redist
            = w.st.redist :=
          (zclient_send_message_preserves w
            (zebra_redistribute_frame ZEBRA_REDISTRIBUTE_ADD i)).2.2.2.1
        rw [ih ((zebra_redistribute_send ZEBRA_REDISTRIBUTE_ADD w i).1), hp1, hp2]
        rfl
      · have hcb : (decide (i ≠ w.st.redist_default) && w.st.redist i) = false := by
          by_cases hd : i = w.st.redist_default
          · simp [hd]
          · have hr : w.st.redist i = false := by
              cases hrt : w.st.redist i
              · rfl
              · exact absurd ⟨hd, hrt⟩ hc
            simp [hr]
        rw [List.foldl_cons, if_neg hc]
        have hfe : (i :: l).filter
            (fun i => decide (i ≠ w.st.redist_default) && w.st.redist i)
            = l.filter (fun i => decide (i ≠ w.st.redist_default) && w.st.redist i) := by
          simp only [List.filter_cons]
          rw [hcb]
          simp
        rw [hfe]
        exact ih w

/-- The route types whose subscription the redistribute flush loop of
zclient_start replays: the subscribed types other than redist_default,
in the ascending order of the loop index. -/
def zclient_replay_types (st : ZClientState) : List Nat :=
  (List.range ZEBRA_ROUTE_MAX).filter
    (fun i => decide (i ≠ st.redist_default) && st.redist i)

/-- The frames of the on-connect handshake of a client state, in the
order zclient_start issues them. -/
def zclient_handshake_frames (st : ZClientState) : List (List Nat) :=
  (if st.redist_default ≠ 0 then [zebra_hello_frame st.redist_default] else [])
  ++ [zebra_simple_frame ZEBRA_ROUTER_ID_ADD, zebra_simple_frame ZEBRA_INTERFACE_ADD]
  ++ (zclient_replay_types st).map (zebra_redistribute_frame ZEBRA_REDISTRIBUTE_ADD)
  ++ (if st.default_information = true then
      [zebra_simple_frame ZEBRA_REDISTRIBUTE_DEFAULT_ADD] else [])

theorem zebra_hello_send_eq_send_list (w : World) :
    (zebra_hello_send w).1
      = zclient_send_list w (if w.st.redist_default ≠ 0 then
          [zebra_hello_frame w.st.redist_default] else []) := by
  by_cases h : w.st.redist_default ≠ 0 <;>
    simp [zebra_hello_send, h, zclient_send_list_cons, zclient_send_list_nil]

theorem zclient_send_list_pair_messages (x : World) (c1 c2 : Nat) :
    zclient_send_list x [zebra_simple_frame c1, zebra_simple_frame c2]
      = (zebra_message_send (zebra_message_send x c1).1 c2).1 := rfl

theorem zclient_send_default_eq_send_list (x : World) :
    (if x.st.default_information = true then
        (zebra_message_send x ZEBRA_REDISTRIBUTE_DEFAULT_ADD).1
      else x)
      = zclient_send_list x (if x.st.default_information = true then
          [zebra_simple_frame ZEBRA_REDISTRIBUTE_DEFAULT_ADD] else []) := by
  by_cases h : x.st.default_information = true <;>
    simp [h, zebra_message_send, zclient_send_list_cons, zclient_send_list_nil]

theorem zebra_hello_send_preserves (w : World) :
    (zebra_hello_send w).1.st.redist = w.st.redist
    ∧ (zebra_hello_send w).1.st.redist_default = w.st.redist_default
    ∧ (zebra_hello_send w).1.st.default_information = w.st.default_information := by
  by_cases h : w.st.redist_default ≠ 0
  · unfold zebra_hello_send
    rw [if_pos h]
    obtain ⟨_, _, _, a4, a5, a6, _⟩ :=
      zclient_send_message_preserves w (zebra_hello_frame w.st.redist_default)
    exact ⟨a4, a5, a6⟩
  · unfold zebra_hello_send
    rw [if_neg h]
    exact ⟨rfl, rfl, rfl⟩

theorem zebra_message_send_preserves (w : World) (c : Nat) :
    (zebra_message_send w c).1.st.redist = w.st.redist
    ∧ (zebra_message_send w c).1.st.redist_default = w.st.redist_default
    ∧ (zebra_message_send w c).1.st.default_information = w.st.default_information := by
  obtain ⟨_, _, _, a4, a5, a6, _⟩ :=
    zclient_send_message_preserves w (zebra_simple_frame c)
  exact ⟨a4, a5, a6⟩

/-- zclient_start_handshake sends exactly the handshake frames of the
starting state, in order, through zclient_send_message. -/
theorem zclient_start_handshake_eq (w0 : World) :
    zclient_start_handshake w0
      = zclient_send_list w0 (zclient_handshake_frames w0.st) := by
  have hw2rd : ((zebra_message_send ((zebra_message_send ((zebra_hello_send w0).1)
      ZEBRA_ROUTER_ID_ADD).1) ZEBRA_INTERFACE_ADD).1).st.redist_default
      = w0.st.redist_default := by
    rw [(zebra_message_send_preserves _ _).2.1, (zebra_message_send_preserves _ _).2.1,
      (zebra_hello_send_preserves _).2.1]
  have hw2r : ((zebra_message_send ((zebra_message_send ((zebra_hello_send w0).1)
      ZEBRA_ROUTER_ID_ADD).1) ZEBRA_INTERFACE_ADD).1).st.redist
      = w0.st.redist := by
    rw [(zebra_message_send_preserves _ _).1, (zebra_message_send_preserves _ _).1,
      (zebra_hello_send_preserves _).1]
  have hfold := foldl_redistribute_eq_send_list (List.range ZEBRA_ROUTE_MAX)
    ((zebra_message_send ((zebra_message_send ((zebra_hello_send w0).1)
      ZEBRA_ROUTER_ID_ADD).1) ZEBRA_INTERFACE_ADD).1)
  have hdi : ((List.range ZEBRA_ROUTE_MAX).foldl
      (fun w i =>
        if i ≠ w.st.redist_default ∧ w.st.redist i = true then
          (zebra_redistribute_send ZEBRA_REDISTRIBUTE_ADD w i).1
        else w)
      ((zebra_message_send ((zebra_message_send ((zebra_hello_send w0).1)
        ZEBRA_ROUTER_ID_ADD).1) ZEBRA_INTERFACE_ADD).1)).st.default_information
      = w0.st.default_information := by
    rw [hfold, (zclient_send_list_preserves _ _).2.2.2.2.2.1,
      (zebra_message_send_preserves _ _).2.2, (zebra_message_send_preserves _ _).2.2,
      (zebra_hello_send_preserves _).2.2]
  simp only [zclient_handshake_frames, zclient_replay_types]
  rw [zclient_send_list_append, zclient_send_list_append, zclient_send_list_append]
  rw [← zebra_hello_send_eq_send_list w0]
  rw [zclient_send_list_pair_messages]
  rw [← hw2rd, ← hw2r]
  rw [← foldl_redistribute_eq_send_list]
  rw [← hdi]
  rw [← zclient_send_default_eq_send_list]
  rfl

/-- When enabled, disconnected, with no pending connect timer or thread,
and the socket call succeeds, zclient_start clears the failure count,
arms the read event and runs the handshake. -/
theorem zclient_start_success (w : World) (newSock : Int)
    (hen : w.st.enable = true) (hsk : w.st.sock < 0)
    (htc : w.st.t_connect = false) (hqt : w.st.qtr_active = false)
    (hns : 0 ≤ newSock) :
    zclient_start w newSock
      = (zclient_send_list
          (zclient_event ZEvent.ZCLIENT_READ
            { w with st := { w.st with sock := newSock, fail := 0 } })
          (zclient_handshake_frames w.st), 0) := by
  unfold zclient_start
  rw [if_neg (by simp [hen]), if_neg (by omega), if_neg (by simp [htc]),
    if_neg (by simp [hqt]), if_neg (by omega)]
  rw [zclient_start_handshake_eq]
  rfl

/-- Claim C5: on every successful connection the on-connect handshake
issues messages in the strict order (1) HELLO if redist_default is set,
(2) ROUTER_ID_ADD, (3) INTERFACE_ADD, (4) the REDISTRIBUTE_ADD messages,
(5) REDISTRIBUTE_DEFAULT_ADD if default_information is set; the frames
reaching the wire are the prefix of that sequence cut at the first send
error, and a send error transitions the machine to the failed state
(socket closed, one failure counted, retry event armed). -/
theorem c5_handshake_order_and_failure (w : World) (newSock : Int)
    (hen : w.st.enable = true) (hsk : w.st.sock < 0)
    (htc : w.st.t_connect = false) (hqt : w.st.qtr_active = false)
    (hns : 0 ≤ newSock) :
    zclient_handshake_frames w.st
      = (if w.st.redist_default ≠ 0 then
          [zebra_hello_frame w.st.redist_default] else [])
        ++ [zebra_simple_frame ZEBRA_ROUTER_ID_ADD,
            zebra_simple_frame ZEBRA_INTERFACE_ADD]
        ++ (zclient_replay_types w.st).map
            (zebra_redistribute_frame ZEBRA_REDISTRIBUTE_ADD)
        ++ (if w.st.default_information = true then
            [zebra_simple_frame ZEBRA_REDISTRIBUTE_DEFAULT_ADD] else [])
    ∧ (zclient_start w newSock).1.sent
      = w.sent ++ frames_accepted w.io w.nwrites (zclient_handshake_frames w.st)
    ∧ (frames_accepted w.io w.nwrites (zclient_handshake_frames w.st)
        = zclient_handshake_frames w.st →
          (zclient_start w newSock).1.st.sock = newSock
          ∧ (zclient_start w newSock).1.st.fail = 0
          ∧ (zclient_start w newSock).1.events = w.events ++ [ZEvent.ZCLIENT_READ])
    ∧ (frames_accepted w.io w.nwrites (zclient_handshake_frames w.st)
        ≠ zclient_handshake_frames w.st →
          (zclient_start w newSock).1.st.sock = -1
          ∧ (zclient_start w newSock).1.st.fail = 1
          ∧ (zclient_start w newSock).1.events
            = w.events ++ [ZEvent.ZCLIENT_READ, ZEvent.ZCLIENT_CONNECT]) := by
  have hstart := zclient_start_success w newSock hen hsk htc hqt hns
  have hspec := zclient_send_list_spec (zclient_handshake_frames w.st)
    (zclient_event ZEvent.ZCLIENT_READ
      { w with st := { w.st with sock := newSock, fail := 0 } })
    (by exact hns)
  refine ⟨rfl, ?_, ?_, ?_⟩
  · rw [hstart]
    exact hspec.1.trans (by simp [zclient_event])
  · intro h
    obtain ⟨a, b, c⟩ := hspec.2.1 h
    rw [hstart]
    exact ⟨a.trans (by simp [zclient_event]), b.trans (by simp [zclient_event]),
      c.trans (by simp [zclient_event])⟩
  · intro h
    obtain ⟨a, b, c⟩ := hspec.2.2 h
    rw [hstart]
    exact ⟨a, b.trans (by simp [zclient_event]),
      c.trans (by simp [zclient_event])⟩

/-- The C5 witness state: enabled, disconnected, subscribed to types
2 and 9 with redist_default 9. -/
@[reducible] def c5State : ZClientState :=
  { enable := true, sock := -1, fail := 0,
    redist := fun t => decide (t = 9) || decide (t = 2), redist_default := 9,
    default_information := false, ibuf := [], ibufSize := 4096, wbuf := [],
    t_connect := false, t_write := false, qtr_active := false }

/-- The C5 witness world: the connect succeeds and writes succeed. -/
@[reducible] def c5World : World :=
  { st := c5State, io := fun _ => BufferResult.BUFFER_EMPTY, nwrites := 0,
    sent := [], events := [], handlers := fun _ => false, invoked := [] }

/-- Witness for C5: the handshake of a fresh reconnect on socket 5. -/
theorem c5_handshake_order_witness :
    (c5World.st.enable = true ∧ c5World.st.sock < 0
      ∧ c5World.st.t_connect = false ∧ c5World.st.qtr_active = false
      ∧ (0 : Int) ≤ 5)
    ∧ (zclient_start c5World 5).1.sent
      = c5World.sent ++ frames_accepted c5World.io c5World.nwrites
          (zclient_handshake_frames c5World.st) :=
  ⟨⟨by decide, by decide, by decide, by decide, by decide⟩,
    (c5_handshake_order_and_failure c5World 5 (by decide) (by decide)
      (by decide) (by decide) (by decide)).2.1⟩

/-- With an oracle that never reports BUFFER_ERROR, every planned frame
is accepted. -/
theorem frames_accepted_all (io : Nat → BufferResult)
    (hok : ∀ n, io n ≠ BufferResult.BUFFER_ERROR) (frames : List (List Nat)) :
    ∀ n0, frames_accepted io n0 frames = frames := by
  induction frames with
  | nil => intro n0; rfl
  | cons f fs ih => intro n0; simp [frames_accepted, hok n0, ih]

/-- Whether a frame's big-endian command field holds
ZEBRA_REDISTRIBUTE_ADD. -/
def is_redistribute_add_frame (f : List Nat) : Bool :=
  f.getD 4 0 * 256 + f.getD 5 0 == ZEBRA_REDISTRIBUTE_ADD

theorem is_redistribute_add_frame_hello (d : Nat) :
    is_redistribute_add_frame (zebra_hello_frame d) = false := rfl

theorem is_redistribute_add_frame_router_id :
    is_redistribute_add_frame (zebra_simple_frame ZEBRA_ROUTER_ID_ADD) = false := rfl

theorem is_redistribute_add_frame_interface :
    is_redistribute_add_frame (zebra_simple_frame ZEBRA_INTERFACE_ADD) = false := rfl

set_option maxRecDepth 4096 in
theorem is_redistribute_add_frame_redistribute (t : Nat) :
    is_redistribute_add_frame
      (zebra_redistribute_frame ZEBRA_REDISTRIBUTE_ADD t) = true := rfl

set_option maxRecDepth 4096 in
theorem zebra_redistribute_frame_getD6 (c t : Nat) :
    (zebra_redistribute_frame c t).getD 6 0 = t % 256 := rfl

/-- Claim C4: for every successful (re)connect in zclient_start (with the
buffer accepting every write), the REDISTRIBUTE_ADD frames emitted are
exactly one per type in the set of route types with redist set other than
redist_default, each emitted exactly once, in ascending type order. -/
theorem c4_redistribute_replay (w : World) (newSock : Int)
    (hen : w.st.enable = true) (hsk : w.st.sock < 0)
    (htc : w.st.t_connect = false) (hqt : w.st.qtr_active = false)
    (hns : 0 ≤ newSock)
    (hok : ∀ n, w.io n ≠ BufferResult.BUFFER_ERROR) :
    ((zclient_start w newSock).1.sent.drop w.sent.length).filter
        is_redistribute_add_frame
      = (zclient_replay_types w.st).map
          (zebra_redistribute_frame ZEBRA_REDISTRIBUTE_ADD)
    ∧ (∀ t, t ∈ zclient_replay_types w.st
        ↔ t < ZEBRA_ROUTE_MAX ∧ w.st.redist t = true ∧ t ≠ w.st.redist_default)
    ∧ (zclient_replay_types w.st).Nodup
    ∧ List.Pairwise (· < ·) (zclient_replay_types w.st)
    ∧ ((zclient_replay_types w.st).map
        (zebra_redistribute_frame ZEBRA_REDISTRIBUTE_ADD)).Nodup := by
  have hall := frames_accepted_all w.io hok (zclient_handshake_frames w.st)
  have hstart := zclient_start_success w newSock hen hsk htc hqt hns
  have hspec := zclient_send_list_spec (zclient_handshake_frames w.st)
    (zclient_event ZEvent.ZCLIENT_READ
      { w with st := { w.st with sock := newSock, fail := 0 } })
    (by exact hns)
  have hsent : (zclient_start w newSock).1.sent
      = w.sent ++ zclient_handshake_frames w.st := by
    rw [hstart]
    exact hspec.1.trans (by simp [zclient_event, hall])
  have hfilter : (zclient_handshake_frames w.st).filter is_redistribute_add_frame
      = (zclient_replay_types w.st).map
          (zebra_redistribute_frame ZEBRA_REDISTRIBUTE_ADD) := by
    have hB : ((zclient_replay_types w.st).map
        (zebra_redistribute_frame ZEBRA_REDISTRIBUTE_ADD)).filter
          is_redistribute_add_frame
        = (zclient_replay_types w.st).map
            (zebra_redistribute_frame ZEBRA_REDISTRIBUTE_ADD) := by
      apply List.filter_eq_self.mpr
      intro a ha
      obtain ⟨t, _, rfl⟩ := List.mem_map.mp ha
      exact is_redistribute_add_frame_redistribute t
    have hA : ((if w.st.redist_default ≠ 0 then
        [zebra_hello_frame w.st.redist_default] else []).filter
          is_redistribute_add_frame) = [] := by
      split
      · simp [List.filter_cons, is_redistribute_add_frame_hello]
      · rfl
    have hC : ((if w.st.default_information = true then
        [zebra_simple_frame ZEBRA_REDISTRIBUTE_DEFAULT_ADD] else []).filter
          is_redistribute_add_frame) = [] := by
      split <;> rfl
    unfold zclient_handshake_frames
    rw [List.filter_append, List.filter_append, List.filter_append, hA, hB, hC]
    simp [List.filter_cons, is_redistribute_add_frame_router_id,
      is_redistribute_add_frame_interface]
  have hmemb : ∀ x ∈ zclient_replay_types w.st, x < ZEBRA_ROUTE_MAX := by
    intro x hx
    exact List.mem_range.mp (List.mem_filter.mp hx).1
  refine ⟨?_, ?_, ?_, ?_, ?_⟩
  · rw [hsent, List.drop_left, hfilter]
  · intro t
    simp only [zclient_replay_types, List.mem_filter, List.mem_range,
      Bool.and_eq_true, decide_eq_true_eq]
    constructor
    · rintro ⟨h1, h2, h3⟩
      exact ⟨h1, h3, h2⟩
    · rintro ⟨h1, h2, h3⟩
      exact ⟨h1, h3, h2⟩
  · exact (List.nodup_range ZEBRA_ROUTE_MAX).filter _
  · exact (List.pairwise_lt_range ZEBRA_ROUTE_MAX).filter _
  · have hinj : ∀ x ∈ zclient_replay_types w.st, ∀ y ∈ zclient_replay_types w.st,
        zebra_redistribute_frame ZEBRA_REDISTRIBUTE_ADD x
          = zebra_redistribute_frame ZEBRA_REDISTRIBUTE_ADD y → x = y := by
      intro x hx y hy hxy
      have hx' := hmemb x hx
      have hy' := hmemb y hy
      simp only [ZEBRA_ROUTE_MAX] at hx' hy'
      have h6 : (zebra_redistribute_frame ZEBRA_REDISTRIBUTE_ADD x).getD 6 0
          = (zebra_redistribute_frame ZEBRA_REDISTRIBUTE_ADD y).getD 6 0 :=
        congrArg (fun f => List.getD f 6 0) hxy
      rw [zebra_redistribute_frame_getD6, zebra_redistribute_frame_getD6] at h6
      omega
    exact ((List.nodup_range ZEBRA_ROUTE_MAX).filter _).map_on hinj

/-- The C4 witness state: subscribed to types 2, 5 and the default 9. -/
@[reducible] def c4State : ZClientState :=
  { enable := true, sock := -1, fail := 0,
    redist := fun t => decide (t = 9) || decide (t = 2) || decide (t = 5),
    redist_default := 9, default_information := false, ibuf := [],
    ibufSize := 4096, wbuf := [], t_connect := false, t_write := false,
    qtr_active := false }

/-- The C4 witness world. -/
@[reducible] def c4World : World :=
  { st := c4State, io := fun _ => BufferResult.BUFFER_EMPTY, nwrites := 0,
    sent := [], events := [], handlers := fun _ => false, invoked := [] }

/-- Witness for C4: replay after a successful reconnect on socket 4. -/
theorem c4_redistribute_replay_witness :
    (c4World.st.enable = true ∧ c4World.st.sock < 0
      ∧ c4World.st.t_connect = false ∧ c4World.st.qtr_active = false
      ∧ (0 : Int) ≤ 4
      ∧ (∀ n, c4World.io n ≠ BufferResult.BUFFER_ERROR))
    ∧ ((zclient_start c4World 4).1.sent.drop c4World.sent.length).filter
        is_redistribute_add_frame
      = (zclient_replay_types c4World.st).map
          (zebra_redistribute_frame ZEBRA_REDISTRIBUTE_ADD) :=
  ⟨⟨by decide, by decide, by decide, by decide, by decide, by intro n; simp⟩,
    (c4_redistribute_replay c4World 4 (by decide) (by decide) (by decide)
      (by decide) (by decide) (by intro n; simp)).1⟩

/-- zapi_ipv4_route on the world: encode the route frame into obuf and
hand it to zclient_send_message. -/
def zapi_ipv4_route (cmd : Nat) (w : World) (prefixlen pfx : Nat)
    (api : zapi_ipv4) : World × Int :=
  zclient_send_message w (zapi_ipv4_route_frame cmd prefixlen pfx api)

/-- The public operations a daemon can perform on the handle after
zclient_init. -/
inductive ZOp where
  | redistribute (command : Nat) (type_ : Nat)
  | redistributeDefault (command : Nat)
  | stop
  | reset
  | start (newSock : Int)
  | readInput (input : List Nat)
  | routeIPv4 (cmd prefixlen pfx : Nat) (api : zapi_ipv4)
  | redistributeSend (command : Nat) (type_ : Nat)
deriving DecidableEq

/-- Apply one public operation to the world. -/
def zclient_apply (w : World) : ZOp → World
  | ZOp.redistribute c t => zclient_redistribute c w t
  | ZOp.redistributeDefault c => zclient_redistribute_default c w
  | ZOp.stop => { w with st := zclient_stop_st w.st }
  | ZOp.reset => zclient_init { w with st := zclient_stop_st w.st }
      w.st.redist_default
  | ZOp.start s => (zclient_start w s).1
  | ZOp.readInput i => (zclient_read w i).1
  | ZOp.routeIPv4 c plen pfx api => (zapi_ipv4_route c w plen pfx api).1
  | ZOp.redistributeSend c t => (zebra_redistribute_send c w t).1

/-- Run a sequence of public operations. -/
def zclient_run (w : World) (ops : List ZOp) : World :=
  ops.foldl zclient_apply w

/-- Operations that do not touch redist[d] through the DELETE branch of
zclient_redistribute: everything except a zclient_redistribute call on
type d with a command other than ZEBRA_REDISTRIBUTE_ADD (the code treats
every non-ADD command as DELETE). -/
def ZOp.keeps_default (d : Nat) : ZOp → Bool
  | ZOp.redistribute c t => decide (c = ZEBRA_REDISTRIBUTE_ADD) || decide (t ≠ d)
  | _ => true

theorem zebra_redistribute_send_preserves_redist (c : Nat) (w : World) (t : Nat) :
    (zebra_redistribute_send c w t).1.st.redist = w.st.redist
    ∧ (zebra_redistribute_send c w t).1.st.redist_default = w.st.redist_default :=
  ⟨(zclient_send_message_preserves _ _).2.2.2.1,
   (zclient_send_message_preserves _ _).2.2.2.2.1⟩

theorem zclient_start_preserves_redist (w : World) (s : Int) :
    (zclient_start w s).1.st.redist = w.st.redist
    ∧ (zclient_start w s).1.st.redist_default = w.st.redist_default := by
  unfold zclient_start
  split_ifs with h1 h2 h3 h4 h5
  · exact ⟨rfl, rfl⟩
  · exact ⟨rfl, rfl⟩
  · exact ⟨rfl, rfl⟩
  · exact ⟨rfl, rfl⟩
  · simp [zclient_event]
  · rw [zclient_start_handshake_eq]
    exact ⟨(zclient_send_list_preserves _ _).2.2.2.1,
      (zclient_send_list_preserves _ _).2.2.2.2.1⟩

theorem zclient_dispatch_preserves_redist (w : World) :
    (zclient_dispatch w).1.st.redist = w.st.redist
    ∧ (zclient_dispatch w).1.st.redist_default = w.st.redist_default := by
  simp only [zclient_dispatch]
  split_ifs <;> simp [zclient_event]

theorem zclient_read_body_preserves_redist (w : World) (rest : List Nat) :
    (zclient_read_body w rest).1.st.redist = w.st.redist
    ∧ (zclient_read_body w rest).1.st.redist_default = w.st.redist_default := by
  simp only [zclient_read_body]
  split_ifs <;>
    first
    | exact zclient_dispatch_preserves_redist _
    | simp [zclient_failed, zclient_stop_st, zclient_event]

theorem zclient_read_preserves_redist (w : World) (input : List Nat) :
    (zclient_read w input).1.st.redist = w.st.redist
    ∧ (zclient_read w input).1.st.redist_default = w.st.redist_default := by
  simp only [zclient_read]
  split_ifs <;>
    first
    | exact zclient_read_body_preserves_redist _ _
    | simp [zclient_failed, zclient_stop_st, zclient_event]

/-- One allowed operation preserves both the stored default type and the
default subscription flag. -/
theorem zclient_apply_keeps (d : Nat) (w : World) (op : ZOp)
    (hop : ZOp.keeps_default d op = true)
    (hd : w.st.redist_default = d) (hr : w.st.redist d = true) :
    (zclient_apply w op).st.redist_default = d
    ∧ (zclient_apply w op).st.redist d = true := by
  cases op with
  | redistribute c t =>
      simp only [ZOp.keeps_default, Bool.or_eq_true, decide_eq_true_eq] at hop
      simp only [zclient_apply, zclient_redistribute]
      split_ifs with hc hrt hs hrt2 hs2
      · exact ⟨hd, hr⟩
      · refine ⟨(zebra_redistribute_send_preserves_redist _ _ _).2.trans hd, ?_⟩
        refine ((congrFun (zebra_redistribute_send_preserves_redist _ _ _).1 d).trans ?_)
        show (if d = t then true else w.st.redist d) = true
        by_cases hdt : d = t
        · simp [hdt]
        · simp [hdt, hr]
      · refine ⟨hd, ?_⟩
        show (if d = t then true else w.st.redist d) = true
        by_cases hdt : d = t
        · simp [hdt]
        · simp [hdt, hr]
      · exact ⟨hd, hr⟩
      · have ht : t ≠ d := by
          rcases hop with h | h
          · exact absurd h hc
          · exact h
        refine ⟨(zebra_redistribute_send_preserves_redist _ _ _).2.trans hd, ?_⟩
        refine ((congrFun (zebra_redistribute_send_preserves_redist _ _ _).1 d).trans ?_)
        show (if d = t then false else w.st.redist d) = true
        rw [if_neg (fun he => ht he.symm)]
        exact hr
      · have ht : t ≠ d := by
          rcases hop with h | h
          · exact absurd h hc
          · exact h
        refine ⟨hd, ?_⟩
        show (if d = t then false else w.st.redist d) = true
        rw [if_neg (fun he => ht he.symm)]
        exact hr
  | redistributeDefault c =>
      simp only [zclient_apply, zclient_redistribute_default]
      split_ifs <;>
        first
        | exact ⟨hd, hr⟩
        | exact ⟨((zebra_message_send_preserves _ _).2.1).trans hd,
            (congrFun (zebra_message_send_preserves _ _).1 d).trans hr⟩
  | stop => exact ⟨hd, hr⟩
  | reset =>
      constructor <;>
        simp [zclient_apply, zclient_init, zclient_init_st, zclient_event,
          zclient_stop_st, hd]
  | start s =>
      have hp := zclient_start_preserves_redist w s
      exact ⟨hp.2.trans hd, (congrFun hp.1 d).trans hr⟩
  | readInput i =>
      have hp := zclient_read_preserves_redist w i
      exact ⟨hp.2.trans hd, (congrFun hp.1 d).trans hr⟩
  | routeIPv4 c plen pfx api =>
      exact ⟨((zclient_send_message_preserves _ _).2.2.2.2.1).trans hd,
        (congrFun (zclient_send_message_preserves _ _).2.2.2.1 d).trans hr⟩
  | redistributeSend c t =>
      exact ⟨(zebra_redistribute_send_preserves_redist _ _ _).2.trans hd,
        (congrFun (zebra_redistribute_send_preserves_redist _ _ _).1 d).trans hr⟩

theorem zclient_run_keeps (d : Nat) (ops : List ZOp) : ∀ w : World,
    (∀ op ∈ ops, ZOp.keeps_default d op = true) →
    w.st.redist_default = d → w.st.redist d = true →
    (zclient_run w ops).st.redist_default = d
    ∧ (zclient_run w ops).st.redist d = true := by
  induction ops with
  | nil => intro w _ hd hr; exact ⟨hd, hr⟩
  | cons op ops ih =>
      intro w hall hd hr
      have h1 := zclient_apply_keeps d w op (hall op (by simp)) hd hr
      exact ih (zclient_apply w op) (fun o ho => hall o (by simp [ho])) h1.1 h1.2

/-- Claim C1 counterexample: zclient_init sets redist[redist_default],
but the public operation zclient_redistribute(ZEBRA_REDISTRIBUTE_DELETE,
redist_default) clears it again, so the flag does not remain 1 under
every sequence of public operations. -/
theorem c1_default_redist_counterexample :
    (zclient_init_world 9 (fun _ => BufferResult.BUFFER_EMPTY)
      (fun _ => false)).st.redist 9 = true
    ∧ (zclient_run (zclient_init_world 9 (fun _ => BufferResult.BUFFER_EMPTY)
        (fun _ => false))
        [ZOp.redistribute ZEBRA_REDISTRIBUTE_DELETE 9]).st.redist 9 = false := by
  constructor <;> rfl

/-- Claim C1 (amended): after zclient_init(zclient, d) the flag redist[d]
is 1 and remains 1 across every sequence of public operations that does
not include a zclient_redistribute call on type d itself with a command
other than ZEBRA_REDISTRIBUTE_ADD (the code treats every non-ADD command
as DELETE, and such a call on d clears the flag, as the counterexample
shows). -/
theorem c1_default_redist_amended (d : Nat) (io : Nat → BufferResult)
    (handlers : Nat → Bool) (ops : List ZOp)
    (hops : ∀ op ∈ ops, ZOp.keeps_default d op = true) :
    (zclient_run (zclient_init_world d io handlers) ops).st.redist d = true := by
  refine (zclient_run_keeps d ops (zclient_init_world d io handlers) hops ?_ ?_).2
  · simp [zclient_init_world, zclient_init, zclient_init_st, zclient_new_world,
      zclient_event]
  · simp [zclient_init_world, zclient_init, zclient_init_st, zclient_new_world,
      zclient_event]

/-- Witness for the amended C1: a run mixing subscribe, unsubscribe of a
non-default type, stop, reconnect, a route send, a read and the
default-information toggle. -/
theorem c1_default_redist_amended_witness :
    (∀ op ∈ [ZOp.redistribute ZEBRA_REDISTRIBUTE_ADD 2, ZOp.stop,
        ZOp.start 3, ZOp.redistribute ZEBRA_REDISTRIBUTE_DELETE 2,
        ZOp.redistributeDefault ZEBRA_REDISTRIBUTE_DEFAULT_ADD,
        ZOp.routeIPv4 ZEBRA_IPV4_ROUTE_ADD 8 167772160 ⟨1, 0, 0, 1, [], [], 0, 0⟩,
        ZOp.readInput [0, 7, 254, 2, 0, 22, 0]],
      ZOp.keeps_default 9 op = true)
    ∧ (zclient_run (zclient_init_world 9 (fun _ => BufferResult.BUFFER_EMPTY)
        (fun _ => false))
        [ZOp.redistribute ZEBRA_REDISTRIBUTE_ADD 2, ZOp.stop,
         ZOp.start 3, ZOp.redistribute ZEBRA_REDISTRIBUTE_DELETE 2,
         ZOp.redistributeDefault ZEBRA_REDISTRIBUTE_DEFAULT_ADD,
         ZOp.routeIPv4 ZEBRA_IPV4_ROUTE_ADD 8 167772160 ⟨1, 0, 0, 1, [], [], 0, 0⟩,
         ZOp.readInput [0, 7, 254, 2, 0, 22, 0]]).st.redist 9 = true :=
  ⟨by decide,
    c1_default_redist_amended 9 (fun _ => BufferResult.BUFFER_EMPTY)
      (fun _ => false)
      [ZOp.redistribute ZEBRA_REDISTRIBUTE_ADD 2, ZOp.stop,
       ZOp.start 3, ZOp.redistribute ZEBRA_REDISTRIBUTE_DELETE 2,
       ZOp.redistributeDefault ZEBRA_REDISTRIBUTE_DEFAULT_ADD,
       ZOp.routeIPv4 ZEBRA_IPV4_ROUTE_ADD 8 167772160 ⟨1, 0, 0, 1, [], [], 0, 0⟩,
       ZOp.readInput [0, 7, 254, 2, 0, 22, 0]]
      (by decide)⟩
